import Mathlib

/-!
# FFmpegWrapper: the muxing session of `src/jni/FFmpegWrapper.c`

A shallow embedding of the JNI entry points `prepareAVFormatContext`,
`writeAVPacketFromEncodedData` and `finalizeAVFormatContext` together with the
file-level globals they share.  The C globals become the fields of `Session`;
every entry point becomes a function from the session before the call to the
session after it.

The container library (libavformat / libavutil) is not part of the sources.
Its objects are represented by the records `AVFormatContext`, `AVStream` and
`AVPacket`, which keep what the wrapper stores into them and, for the format
context, a log of the calls the wrapper makes on it.  What the library answers
(return codes, whether a stream could be allocated, the time base a stream ends
up with) is an explicit argument of each entry point.

Machine integers are `Int`; `int64_t` subtraction and division wrap with
`wrap64`.
-/

namespace FFmpegWrapper

/-! ## Constants taken from the library headers -/

/-- Smallest `int64_t`. -/
def INT64_MIN : Int := -9223372036854775808

/-- Largest `int64_t`. -/
def INT64_MAX : Int := 9223372036854775807

/-- The "no timestamp" sentinel `AV_NOPTS_VALUE` of `libavutil/avutil.h`,
`(int64_t)0x8000000000000000`. -/
def AV_NOPTS_VALUE : Int := INT64_MIN

/-- The value of `JNI_TRUE` in `jni.h`. -/
def JNI_TRUE : Int := 1

/-- The keyframe bit `AV_PKT_FLAG_KEY` of `libavcodec/avcodec.h`. -/
def AV_PKT_FLAG_KEY : Int := 1

/-- Two's-complement reduction of an integer to the `int64_t` range. -/
def wrap64 (x : Int) : Int :=
  (x + 9223372036854775808) % 18446744073709551616 - 9223372036854775808

/-- Membership in the `int64_t` range. -/
def isInt64 (x : Int) : Prop := INT64_MIN ≤ x ∧ x ≤ INT64_MAX

instance (x : Int) : Decidable (isInt64 x) := by
  unfold isInt64; infer_instance

/-- The value a C comparison yields: `1` when it holds, `0` otherwise. -/
def cBool (p : Prop) [Decidable p] : Int := if p then 1 else 0

/-! ## Records of the container library -/

/-- A rational number as the library stores it (`AVRational`). -/
structure AVRational where
  num : Int
  den : Int
deriving DecidableEq, Repr

/-- The constant `AV_TIME_BASE_Q` of `libavutil/avutil.h`: microseconds. -/
def AV_TIME_BASE_Q : AVRational := ⟨1, 1000000⟩

/-- The two codecs the wrapper hardcodes (`VIDEO_CODEC_ID`, `AUDIO_CODEC_ID`). -/
inductive CodecID where
  | CODEC_ID_H264
  | CODEC_ID_AAC
deriving DecidableEq, Repr

/-- A stream of the output context with the codec fields the wrapper fills in
(`addVideoStream`, `addAudioStream`) and the time base the packets of the
stream are rescaled to. -/
structure AVStream where
  index : Int
  time_base : AVRational
  codec_id : CodecID
  extradata : List Nat
  extradata_size : Int
  width : Int
  height : Int
  sample_rate : Int
  channels : Int
deriving DecidableEq, Repr

/-- The fields of an `AVPacket` the wrapper assigns before it hands the packet
to the container writer. -/
structure AVPacket where
  stream_index : Int
  pts : Int
  dts : Int
  data : Nat
  size : Int
  flags : Int
deriving DecidableEq, Repr

/-- The output context: its streams, the option the wrapper sets on it, and a
log of the calls made on it.  `frames` lists the packets passed to
`av_interleaved_write_frame` (flag `true`) or `av_write_frame` (flag `false`) in
call order; `opened`, `headers`, `trailers`, `flushed`, `closed` and `freed`
count the calls of `avio_open`, `avformat_write_header`, `av_write_trailer`,
`avio_flush`, `avio_close` and `avformat_free_context` on this context. -/
structure AVFormatContext where
  streams : List AVStream
  max_interleave_delta : Int
  hls_time : Option Int
  opened : Nat
  headers : Nat
  frames : List (Bool × AVPacket)
  trailers : Nat
  flushed : Nat
  closed : Nat
  freed : Nat
deriving DecidableEq, Repr

/-- The context `avformat_alloc_output_context2` hands back on success. -/
def newContext : AVFormatContext :=
  { streams := [], max_interleave_delta := 0, hls_time := none, opened := 0,
    headers := 0, frames := [], trailers := 0, flushed := 0, closed := 0, freed := 0 }

/-- The element `streams[i]` of a context, when `i` is a valid position. -/
def AVFormatContext.stream (ctx : AVFormatContext) (i : Int) : Option AVStream :=
  if i < 0 then none else ctx.streams[i.toNat]?

/-! ## The globals of the wrapper -/

/-- The file-level variables of `FFmpegWrapper.c` (lines 41-64).
`outputFormatContext` is `none` for the NULL pointer. -/
structure Session where
  outputPath : String
  outputFormatName : String
  hlsSegmentDurationSec : Int
  audioStreamIndex : Int
  videoStreamIndex : Int
  VIDEO_WIDTH : Int
  VIDEO_HEIGHT : Int
  AUDIO_SAMPLE_RATE : Int
  AUDIO_CHANNELS : Int
  VIDEO_FIRST_PTS : Int
  AUDIO_FIRST_PTS : Int
  outputFormatContext : Option AVFormatContext
  IS_RUNNING : Int
deriving DecidableEq, Repr

/-- The initial values of the globals (lines 41-64). -/
def initialSession : Session :=
  { outputPath := "", outputFormatName := "flv", hlsSegmentDurationSec := 10,
    audioStreamIndex := -1, videoStreamIndex := -1,
    VIDEO_WIDTH := 1280, VIDEO_HEIGHT := 720,
    AUDIO_SAMPLE_RATE := 44100, AUDIO_CHANNELS := 1,
    VIDEO_FIRST_PTS := AV_NOPTS_VALUE, AUDIO_FIRST_PTS := AV_NOPTS_VALUE,
    outputFormatContext := none, IS_RUNNING := 0 }

/-! ## Rescaling -/

/-- Modelled from the spec: `av_rescale_rnd` of the container library with the
rounding mode `AV_ROUND_NEAR_INF`, which is not part of the sources.  The spec
asks for "a standard rational rescale", "ties rounded toward nearest, matching
the container library's own rescale convention": `a * b / c` rounded to the
nearest integer, halves away from zero, and `INT64_MIN` for a non-positive `c`
or a negative `b`.  The arithmetic is exact (the library computes the product
in 128 bits). -/
def av_rescale_rnd (a b c : Int) : Int :=
  if c ≤ 0 ∨ b < 0 then INT64_MIN
  else if a < 0 then -((-a * b + c / 2) / c)
  else (a * b + c / 2) / c

/-- Modelled from the spec: `av_rescale_q a bq cq` of the container library,
which is not part of the sources: rescale `a` from the time base `bq` to the
time base `cq`, that is `a * (bq.num * cq.den) / (cq.num * bq.den)` rounded to
nearest. -/
def av_rescale_q (a : Int) (bq cq : AVRational) : Int :=
  av_rescale_rnd a (bq.num * cq.den) (cq.num * bq.den)

/-! ## Opening the output -/

/-- What the container library answers during `prepareAVFormatContext`:
the return code of `avformat_alloc_output_context2`; for each of the two
`avformat_new_stream` calls `none` when it returns NULL and otherwise the time
base the muxer gives the stream; whether the format has `AVFMT_NOFILE`; the
return codes of `avio_open` and `avformat_write_header`. -/
structure PrepareAnswers where
  allocResult : Int
  videoStream : Option AVRational
  audioStream : Option AVRational
  nofile : Bool
  avioOpenResult : Int
  writeHeaderResult : Int
deriving DecidableEq, Repr

/-- The function `ffmpeg_init` (lines 74-89). -/
def ffmpeg_init (s : Session) : Session :=
  { s with IS_RUNNING := 0 }

/-- The function `addVideoStream` (lines 103-152) on the context `dest`, which is
the one `outputFormatContext` points to.  `newStream` is the answer of
`avformat_new_stream`. -/
def addVideoStream (s : Session) (dest : AVFormatContext) (extradata : List Nat)
    (extradata_size : Int) (newStream : Option AVRational) : Session × Int :=
  match newStream with
  | none => (s, -1)
  | some tb =>
    let index : Int := dest.streams.length
    let st : AVStream :=
      { index := index, time_base := tb, codec_id := CodecID.CODEC_ID_H264,
        extradata := if extradata_size > 0 then extradata.take extradata_size.toNat else [],
        extradata_size := if extradata_size > 0 then extradata_size else 0,
        width := s.VIDEO_WIDTH, height := s.VIDEO_HEIGHT,
        sample_rate := 0, channels := 0 }
    ({ s with videoStreamIndex := index,
              outputFormatContext := some { dest with streams := dest.streams ++ [st] } }, 0)

/-- The function `addAudioStream` (lines 154-204) on the context `formatContext`,
which is the one `outputFormatContext` points to. -/
def addAudioStream (s : Session) (formatContext : AVFormatContext) (extradata : List Nat)
    (extradata_size : Int) (newStream : Option AVRational) : Session × Int :=
  match newStream with
  | none => (s, -1)
  | some tb =>
    let index : Int := formatContext.streams.length
    let st : AVStream :=
      { index := index, time_base := tb, codec_id := CodecID.CODEC_ID_AAC,
        extradata := if extradata_size > 0 then extradata.take extradata_size.toNat else [],
        extradata_size := if extradata_size > 0 then extradata_size else 0,
        width := 0, height := 0,
        sample_rate := s.AUDIO_SAMPLE_RATE, channels := s.AUDIO_CHANNELS }
    ({ s with audioStreamIndex := index,
              outputFormatContext :=
                some { formatContext with streams := formatContext.streams ++ [st] } }, 0)

/-- The function `openFileForWriting` (lines 206-213): the context after the
call and the returned code. -/
def openFileForWriting (avfc : AVFormatContext) (nofile : Bool) (avioOpenResult : Int) :
    AVFormatContext × Int :=
  if !nofile then
    ({ avfc with opened := if avioOpenResult < 0 then avfc.opened else avfc.opened + 1 },
      avioOpenResult)
  else (avfc, 0)

/-- The function `writeFileHeader` (lines 215-226). -/
def writeFileHeader (avfc : AVFormatContext) (writeHeaderResult : Int) :
    AVFormatContext × Int :=
  ({ avfc with headers := avfc.headers + 1 }, writeHeaderResult)

/-- Lines 258-270 of `prepareAVFormatContext`: the two guarded `add...Stream`
calls with their early returns, and the value of `result` after them.  `result`
is the value of the variable before line 258. -/
def prepareStreams (s : Session) (result : Int) (jVideoData : List Nat) (jVideoSize : Int)
    (jAudioData : List Nat) (jAudioSize : Int) (lib : PrepareAnswers) : Session × Int :=
  let rv : Session × Int :=
    if jVideoSize > 0 then
      match s.outputFormatContext with
      | some ctx => addVideoStream s ctx jVideoData jVideoSize lib.videoStream
      | none => (s, result)
    else (s, result)
  if rv.2 < 0 then rv
  else if jAudioSize > 0 then
    match rv.1.outputFormatContext with
    | some ctx => addAudioStream rv.1 ctx jAudioData jAudioSize lib.audioStream
    | none => rv
  else rv

/-- Lines 272-285 of `prepareAVFormatContext` on the allocated context `ctx`: the
HLS option, the interleave delta, opening the destination and writing the
header. -/
def prepareOutput (s : Session) (ctx : AVFormatContext) (jMaxInterleaveDelta : Int)
    (lib : PrepareAnswers) : Session × Int :=
  let ctx := if s.outputFormatName = "hls" then
      { ctx with hls_time := some s.hlsSegmentDurationSec } else ctx
  let ctx := { ctx with max_interleave_delta := jMaxInterleaveDelta }
  let ro := openFileForWriting ctx lib.nofile lib.avioOpenResult
  if ro.2 < 0 then ({ s with outputFormatContext := some ro.1 }, ro.2)
  else
    let rh := writeFileHeader ro.1 lib.writeHeaderResult
    ({ s with IS_RUNNING := 1, outputFormatContext := some rh.1 }, rh.2)

/-- The entry point `prepareAVFormatContext` (lines 245-286): the session after
the call and the returned code.  `avformat_alloc_output_context2` stores NULL in
`outputFormatContext` when it fails and a new context otherwise, so the `none`
cases of `prepareStreams` and of the last `match` are never reached. -/
def prepareAVFormatContext (s : Session) (jOutputPath : String)
    (jVideoData : List Nat) (jVideoSize : Int) (jAudioData : List Nat) (jAudioSize : Int)
    (jMaxInterleaveDelta : Int) (lib : PrepareAnswers) : Session × Int :=
  let s := { ffmpeg_init s with outputPath := jOutputPath }
  if lib.allocResult < 0 then ({ s with outputFormatContext := none }, lib.allocResult)
  else
    let r := prepareStreams { s with outputFormatContext := some newContext } lib.allocResult
      jVideoData jVideoSize jAudioData jAudioSize lib
    if r.2 < 0 then r
    else
      match r.1.outputFormatContext with
      | some ctx => prepareOutput r.1 ctx jMaxInterleaveDelta lib
      | none => r

/-! ## Options -/

/-- The entry point `setAVOptions` (lines 291-317): the fields of the Java
options object are copied into the globals. -/
def setAVOptions (s : Session) (videoHeight videoWidth audioSampleRate numAudioChannels
    hlsSegmentDurationSec : Int) (outputFormatName : String) : Session :=
  { s with VIDEO_HEIGHT := videoHeight, VIDEO_WIDTH := videoWidth,
           AUDIO_SAMPLE_RATE := audioSampleRate, AUDIO_CHANNELS := numAudioChannels,
           hlsSegmentDurationSec := hlsSegmentDurationSec,
           outputFormatName := outputFormatName }

/-! ## Writing a packet -/

/-- How a call of `writeAVPacketFromEncodedData` ends.  `ignored`: the `return;`
of line 328, the stream of the packet is not initialised.  `dropped`: the
`return;` of line 354, a video packet with timestamp 0 before the first video
timestamp is known.  `written pkt ret`: line 389 is reached after `pkt` was
passed to `av_interleaved_write_frame` or `av_write_frame`, which returned
`ret`.  `divisionByZero`: line 361 divides by `AUDIO_CHANNELS = 0`.
`badStream`: line 374 reads `outputFormatContext->streams[...]` through a NULL
context or outside the stream array. -/
inductive WriteResult where
  | ignored
  | dropped
  | written (pkt : AVPacket) (ret : Int)
  | divisionByZero
  | badStream
deriving DecidableEq, Repr

/-- How lines 347-365 end: the packet is released at line 353, line 361 divides
by zero, or line 366 is reached with the updated globals and the values of
`packet->stream_index` and `packet->pts`. -/
inductive Adjusted where
  | release
  | divisionByZero
  | ok (s : Session) (stream_index : Int) (pts : Int)
deriving DecidableEq, Repr

/-- Lines 347-365 of `writeAVPacketFromEncodedData`: choose the stream, set the
first-timestamp anchor of the track when it is still `AV_NOPTS_VALUE`, and
compute `packet->pts` relative to the anchor. -/
def adjustPts (s : Session) (jIsVideo jPts : Int) : Adjusted :=
  let curr_pts := jPts
  if jIsVideo = JNI_TRUE then
    if s.VIDEO_FIRST_PTS = AV_NOPTS_VALUE ∧ curr_pts = 0 then Adjusted.release
    else
      let s := if s.VIDEO_FIRST_PTS = AV_NOPTS_VALUE then
          { s with VIDEO_FIRST_PTS := curr_pts } else s
      Adjusted.ok s s.videoStreamIndex (wrap64 (curr_pts - s.VIDEO_FIRST_PTS))
  else
    if s.AUDIO_CHANNELS = 0 then Adjusted.divisionByZero
    else
      let curr_pts := wrap64 (Int.tdiv curr_pts s.AUDIO_CHANNELS)
      let s := if s.AUDIO_FIRST_PTS = AV_NOPTS_VALUE then
          { s with AUDIO_FIRST_PTS := curr_pts } else s
      Adjusted.ok s s.audioStreamIndex (wrap64 (curr_pts - s.AUDIO_FIRST_PTS))

/-- The condition of line 371 as C parses it: `>` binds tighter than `&`, and `&`
tighter than `&&`, so it reads `jIsVideo == JNI_TRUE && (jFlags & (1 > 0))`. -/
def keyframeTest (jIsVideo jFlags : Int) : Prop :=
  jIsVideo = JNI_TRUE ∧ Int.land jFlags (cBool ((1 : Int) > 0)) ≠ 0

instance (jIsVideo jFlags : Int) : Decidable (keyframeTest jIsVideo jFlags) := by
  unfold keyframeTest; infer_instance

/-- The entry point `writeAVPacketFromEncodedData` (lines 323-390).  `ret` is
what the write call of the container library returns. -/
def writeAVPacketFromEncodedData (s : Session) (jData : Nat)
    (jIsVideo jSize jFlags jPts jIsInterleave : Int) (ret : Int) : Session × WriteResult :=
  if (jIsVideo = JNI_TRUE ∧ s.videoStreamIndex = -1) ∨
      (jIsVideo ≠ JNI_TRUE ∧ s.audioStreamIndex = -1) then (s, WriteResult.ignored)
  else
    match adjustPts s jIsVideo jPts with
    | Adjusted.release => (s, WriteResult.dropped)
    | Adjusted.divisionByZero => (s, WriteResult.divisionByZero)
    | Adjusted.ok s stream_index pts =>
      let flags : Int := if keyframeTest jIsVideo jFlags then Int.lor 0 AV_PKT_FLAG_KEY else 0
      match s.outputFormatContext with
      | none => (s, WriteResult.badStream)
      | some ctx =>
        match ctx.stream stream_index with
        | none => (s, WriteResult.badStream)
        | some st =>
          let packet : AVPacket :=
            { stream_index := stream_index,
              pts := av_rescale_q pts AV_TIME_BASE_Q st.time_base,
              dts := AV_NOPTS_VALUE, data := jData, size := jSize, flags := flags }
          let ctx := { ctx with frames := ctx.frames ++ [(decide (jIsInterleave = JNI_TRUE), packet)] }
          ({ s with outputFormatContext := some ctx }, WriteResult.written packet ret)

/-! ## Closing the output -/

/-- The function `writeFileTrailer` (lines 228-235). -/
def writeFileTrailer (avfc : AVFormatContext) : AVFormatContext :=
  { avfc with trailers := avfc.trailers + 1 }

/-- Lines 399-405 of `finalizeAVFormatContext` on the context
`outputFormatContext` points to: trailer, flush and close. -/
def finishOutput (ctx : AVFormatContext) : AVFormatContext :=
  let ctx := writeFileTrailer ctx
  { ctx with flushed := ctx.flushed + 1, closed := ctx.closed + 1 }

/-- The call `avformat_free_context(outputFormatContext)` of line 408: nothing
for NULL, otherwise counted in the `freed` field of the context.  The pointer
itself is not changed. -/
def freeContext (p : Option AVFormatContext) : Option AVFormatContext :=
  p.map (fun c => { c with freed := c.freed + 1 })

/-- The entry point `finalizeAVFormatContext` (lines 395-417).  The result is
`none` when line 399 is reached with a NULL `outputFormatContext`. -/
def finalizeAVFormatContext (s : Session) : Option Session :=
  if s.IS_RUNNING ≠ 0 ∧ s.outputFormatContext = none then none
  else
    let p := if s.IS_RUNNING ≠ 0 then s.outputFormatContext.map finishOutput
      else s.outputFormatContext
    some { s with
      outputFormatContext := freeContext p,
      audioStreamIndex := -1, videoStreamIndex := -1,
      VIDEO_FIRST_PTS := AV_NOPTS_VALUE, AUDIO_FIRST_PTS := AV_NOPTS_VALUE,
      IS_RUNNING := 0 }

/-! ## Sequences of calls -/

/-- The arguments of one `writeAVPacketFromEncodedData` call together with the
code the container library returns for it. -/
structure WriteCall where
  jData : Nat
  jIsVideo : Int
  jSize : Int
  jFlags : Int
  jPts : Int
  jIsInterleave : Int
  ret : Int
deriving DecidableEq, Repr

/-- One call of `writeAVPacketFromEncodedData` with the arguments of `c`. -/
def writeCall (s : Session) (c : WriteCall) : Session × WriteResult :=
  writeAVPacketFromEncodedData s c.jData c.jIsVideo c.jSize c.jFlags c.jPts c.jIsInterleave c.ret

/-- The session after a sequence of `writeAVPacketFromEncodedData` calls.  A call
that ends in `divisionByZero` or `badStream` ends the process: the calls after
it are not made. -/
def writeAll : Session → List WriteCall → Session
  | s, [] => s
  | s, c :: cs =>
    match writeCall s c with
    | (s1, WriteResult.divisionByZero) => s1
    | (s1, WriteResult.badStream) => s1
    | (s1, _) => writeAll s1 cs

/-- The packets the container writer has been handed so far, in call order. -/
def forwarded (s : Session) : List AVPacket :=
  match s.outputFormatContext with
  | none => []
  | some ctx => ctx.frames.map Prod.snd

/-- The context of the session has the stream `st` at position `i`. -/
def hasStream (s : Session) (i : Int) (st : AVStream) : Prop :=
  ∃ ctx, s.outputFormatContext = some ctx ∧ ctx.stream i = some st

/-- The first packet of the stream with index `i` in a list of packets. -/
def firstOf (i : Int) (l : List AVPacket) : Option AVPacket :=
  l.find? (fun p => decide (p.stream_index = i))

/-- A session in which writing can proceed: the two tracks have different stream
indices, `AUDIO_CHANNELS >= 1`, and every registered track has its stream in the
output context, with a time base of positive numerator and denominator. -/
def Ready (s : Session) : Prop :=
  s.videoStreamIndex ≠ s.audioStreamIndex ∧ 1 ≤ s.AUDIO_CHANNELS ∧
  (s.videoStreamIndex ≠ -1 →
    ∃ st, hasStream s s.videoStreamIndex st ∧ 0 < st.time_base.num ∧ 0 < st.time_base.den) ∧
  (s.audioStreamIndex ≠ -1 →
    ∃ st, hasStream s s.audioStreamIndex st ∧ 0 < st.time_base.num ∧ 0 < st.time_base.den)

/-- The value of `packet->pts` after line 365, before the rescale of line 374,
when that line is reached. -/
def adjustedPts (s : Session) (jIsVideo jPts : Int) : Option Int :=
  match adjustPts s jIsVideo jPts with
  | Adjusted.ok _ _ pts => some pts
  | _ => none

/-- The calls of the end-to-end scenario: video packets with raw PTS 0, 3000 and
6000 (the second marked as a keyframe), then audio packets with raw PTS 0 and
2048, all interleaved, the writer returning 0. -/
def scenarioCalls : List WriteCall :=
  [⟨1, 1, 100, 0, 0, 1, 0⟩, ⟨2, 1, 100, 1, 3000, 1, 0⟩, ⟨3, 1, 100, 0, 6000, 1, 0⟩,
   ⟨4, 0, 50, 0, 0, 1, 0⟩, ⟨5, 0, 50, 0, 2048, 1, 0⟩]

/-! ## A concrete session -/

/-- Answers of the container library when every step of opening succeeds and the
muxer gives both streams the millisecond time base of the FLV muxer. -/
def allSucceed : PrepareAnswers :=
  { allocResult := 0, videoStream := some ⟨1, 1000⟩, audioStream := some ⟨1, 1000⟩,
    nofile := false, avioOpenResult := 0, writeHeaderResult := 0 }

/-- The session after a successful `prepareAVFormatContext` from the initial
globals with two bytes of video extradata and two bytes of audio extradata. -/
def openedSession : Session :=
  (prepareAVFormatContext initialSession "/sdcard/out.flv" [103, 66] 2 [18, 16] 2 0 allSucceed).1

/-- The opened session after a first video packet with PTS 3000 and a first
audio packet with PTS 2048: both anchors are set. -/
def anchoredSession : Session :=
  writeAll openedSession [⟨7, 1, 100, 1, 3000, 1, 0⟩, ⟨8, 0, 50, 0, 2048, 1, 0⟩]

/-- The video stream of `openedSession`. -/
def openedVideoStream : AVStream :=
  { index := 0, time_base := ⟨1, 1000⟩, codec_id := CodecID.CODEC_ID_H264,
    extradata := [103, 66], extradata_size := 2, width := 1280, height := 720,
    sample_rate := 0, channels := 0 }

/-- The audio stream of `openedSession`. -/
def openedAudioStream : AVStream :=
  { index := 1, time_base := ⟨1, 1000⟩, codec_id := CodecID.CODEC_ID_AAC,
    extradata := [18, 16], extradata_size := 2, width := 0, height := 0,
    sample_rate := 44100, channels := 1 }

/-- Answers of the container library when `avformat_new_stream` returns NULL for
the audio stream and every other step succeeds. -/
def audioStreamFails : PrepareAnswers :=
  { allSucceed with audioStream := none }

/-- The session after `prepareAVFormatContext` from the initial globals when the
audio stream cannot be allocated. -/
def halfOpenedSession : Session :=
  (prepareAVFormatContext initialSession "/sdcard/out.flv" [103, 66] 2 [18, 16] 2 0
    audioStreamFails).1

/-- The session after a successful `prepareAVFormatContext` from the initial
globals with no video extradata (size 0) and two bytes of audio extradata. -/
def openedWithoutVideoExtradata : Session :=
  (prepareAVFormatContext initialSession "/sdcard/out.flv" [] 0 [18, 16] 2 0 allSucceed).1

/-! ## Arithmetic lemmas -/

theorem wrap64_of_isInt64 (x : Int) (h : isInt64 x) : wrap64 x = x := by
  unfold isInt64 INT64_MIN INT64_MAX at h
  unfold wrap64
  rw [Int.emod_eq_of_lt (by omega) (by omega)]
  omega

theorem wrap64_zero : wrap64 0 = 0 := by decide

theorem wrap64_sub_self (x : Int) : wrap64 (x - x) = 0 := by
  rw [sub_self]; exact wrap64_zero

theorem tdiv_neg_eq (a c : Int) (ha : a < 0) (hc : 0 < c) : Int.tdiv a c = -((-a) / c) := by
  rw [← Int.tdiv_eq_ediv (by omega) (by omega), Int.neg_tdiv, neg_neg]

theorem tdiv_mono (a b c : Int) (hc : 0 < c) (h : a ≤ b) : Int.tdiv a c ≤ Int.tdiv b c := by
  rcases lt_or_le a 0 with ha | ha
  · rcases lt_or_le b 0 with hb | hb
    · rw [tdiv_neg_eq a c ha hc, tdiv_neg_eq b c hb hc]
      have := Int.ediv_le_ediv hc (show -b ≤ -a by omega)
      omega
    · have h2 := Int.tdiv_nonneg hb (le_of_lt hc)
      have h3 : 0 ≤ (-a) / c := Int.ediv_nonneg (by omega) (le_of_lt hc)
      rw [tdiv_neg_eq a c ha hc]
      omega
  · rw [Int.tdiv_eq_ediv ha (le_of_lt hc), Int.tdiv_eq_ediv (by omega) (le_of_lt hc)]
    exact Int.ediv_le_ediv hc h

theorem tdiv_isInt64 (p c : Int) (hp : isInt64 p) (hc : 1 ≤ c) : isInt64 (Int.tdiv p c) := by
  unfold isInt64 INT64_MIN INT64_MAX at *
  rcases lt_or_le p 0 with h | h
  · rw [tdiv_neg_eq p c h (by omega)]
    have h1 : (-p) / c ≤ -p := Int.ediv_le_self c (by omega)
    have h2 : 0 ≤ (-p) / c := Int.ediv_nonneg (by omega) (by omega)
    omega
  · rw [Int.tdiv_eq_ediv h (by omega)]
    have h1 : p / c ≤ p := Int.ediv_le_self c h
    have h2 : 0 ≤ p / c := Int.ediv_nonneg h (by omega)
    omega

theorem ldiff_one (m : Nat) : Nat.ldiff 1 m = (m + 1) % 2 := by
  apply Nat.eq_of_testBit_eq
  intro i
  rw [Nat.testBit_ldiff]
  cases i with
  | zero =>
    simp [Nat.testBit_zero]
    rcases Nat.mod_two_eq_zero_or_one m with h | h
    · have : (m + 1) % 2 = 1 := by omega
      simp [h, this]
    · have : (m + 1) % 2 = 0 := by omega
      simp [h, this]
  | succ i =>
    have h : (m + 1) % 2 < 2 := Nat.mod_lt _ (by decide)
    have h2 : ((m + 1) % 2).testBit (i + 1) = false := by
      apply Nat.testBit_eq_false_of_lt
      calc (m + 1) % 2 < 2 := h
        _ ≤ 2 ^ (i + 1) := by
          have := Nat.one_le_two_pow (n := i)
          omega
    rw [h2]
    simp [Nat.testBit_succ]

theorem land_one (x : Int) : Int.land x 1 = x % 2 := by
  cases x with
  | ofNat m =>
    show Int.land (Int.ofNat m) (Int.ofNat 1) = _
    simp only [Int.land]
    rw [Nat.and_one_is_mod]
    simp
  | negSucc m =>
    show Int.land (Int.negSucc m) (Int.ofNat 1) = _
    simp only [Int.land]
    rw [ldiff_one, Int.negSucc_eq]
    push_cast
    omega

/-! ## Rescaling lemmas -/

theorem av_rescale_rnd_zero (b c : Int) (hb : 0 ≤ b) (hc : 0 < c) : av_rescale_rnd 0 b c = 0 := by
  unfold av_rescale_rnd
  have h1 : ¬ (c ≤ 0 ∨ b < 0) := by omega
  rw [if_neg h1, if_neg (by decide)]
  simp only [zero_mul, zero_add]
  exact Int.ediv_eq_zero_of_lt (by omega) (by omega)

theorem av_rescale_rnd_nonneg (a b c : Int) (ha : 0 ≤ a) (hb : 0 ≤ b) (hc : 0 < c) :
    0 ≤ av_rescale_rnd a b c := by
  unfold av_rescale_rnd
  rw [if_neg (by omega), if_neg (by omega)]
  apply Int.ediv_nonneg _ (le_of_lt hc)
  have : 0 ≤ a * b := mul_nonneg ha hb
  omega

theorem av_rescale_rnd_nonpos (a b c : Int) (ha : a < 0) (hb : 0 ≤ b) (hc : 0 < c) :
    av_rescale_rnd a b c ≤ 0 := by
  unfold av_rescale_rnd
  rw [if_neg (by omega), if_pos ha]
  have h : 0 ≤ (-a * b + c / 2) / c := by
    apply Int.ediv_nonneg _ (le_of_lt hc)
    have : 0 ≤ -a * b := mul_nonneg (by omega) hb
    omega
  omega

theorem av_rescale_rnd_mono (a1 a2 b c : Int) (hb : 0 ≤ b) (hc : 0 < c) (h : a1 ≤ a2) :
    av_rescale_rnd a1 b c ≤ av_rescale_rnd a2 b c := by
  rcases lt_or_le a2 0 with h2 | h2
  · have h1 : a1 < 0 := by omega
    unfold av_rescale_rnd
    rw [if_neg (by omega), if_pos h1, if_neg (by omega), if_pos h2]
    have hm : -a2 * b ≤ -a1 * b := mul_le_mul_of_nonneg_right (by omega) hb
    have := Int.ediv_le_ediv hc (show -a2 * b + c / 2 ≤ -a1 * b + c / 2 by omega)
    omega
  · rcases lt_or_le a1 0 with h1 | h1
    · exact le_trans (av_rescale_rnd_nonpos a1 b c h1 hb hc) (av_rescale_rnd_nonneg a2 b c h2 hb hc)
    · unfold av_rescale_rnd
      rw [if_neg (by omega), if_neg (by omega), if_neg (by omega), if_neg (by omega)]
      have hm : a1 * b ≤ a2 * b := mul_le_mul_of_nonneg_right h hb
      exact Int.ediv_le_ediv hc (by omega)

theorem av_rescale_q_zero (tb : AVRational) (hn : 0 < tb.num) (hd : 0 < tb.den) :
    av_rescale_q 0 AV_TIME_BASE_Q tb = 0 := by
  unfold av_rescale_q AV_TIME_BASE_Q
  apply av_rescale_rnd_zero
  · simp only [one_mul]; omega
  · simp only; omega

theorem av_rescale_q_mono (a1 a2 : Int) (tb : AVRational) (hn : 0 < tb.num) (hd : 0 < tb.den)
    (h : a1 ≤ a2) : av_rescale_q a1 AV_TIME_BASE_Q tb ≤ av_rescale_q a2 AV_TIME_BASE_Q tb := by
  unfold av_rescale_q AV_TIME_BASE_Q
  apply av_rescale_rnd_mono
  · simp only [one_mul]; omega
  · simp only; omega
  · exact h

/-! ## One call of `writeAVPacketFromEncodedData` -/

theorem write_ignored (s : Session) (jData : Nat) (jIsVideo jSize jFlags jPts jIsInterleave ret : Int)
    (h : (jIsVideo = JNI_TRUE ∧ s.videoStreamIndex = -1) ∨
      (jIsVideo ≠ JNI_TRUE ∧ s.audioStreamIndex = -1)) :
    writeAVPacketFromEncodedData s jData jIsVideo jSize jFlags jPts jIsInterleave ret
      = (s, WriteResult.ignored) := by
  unfold writeAVPacketFromEncodedData
  rw [if_pos h]

theorem write_video_dropped (s : Session) (jData : Nat) (jIsVideo jSize jFlags jPts jIsInterleave ret : Int)
    (hv : jIsVideo = JNI_TRUE) (hreg : s.videoStreamIndex ≠ -1)
    (hun : s.VIDEO_FIRST_PTS = AV_NOPTS_VALUE) (hp : jPts = 0) :
    writeAVPacketFromEncodedData s jData jIsVideo jSize jFlags jPts jIsInterleave ret
      = (s, WriteResult.dropped) := by
  unfold writeAVPacketFromEncodedData
  rw [if_neg (by simp [hv, hreg])]
  simp [adjustPts, hv, hun, hp]

theorem write_video_written (s : Session) (jData : Nat) (jIsVideo jSize jFlags jPts jIsInterleave ret : Int)
    (ctx : AVFormatContext) (st : AVStream)
    (hv : jIsVideo = JNI_TRUE) (hreg : s.videoStreamIndex ≠ -1)
    (hnd : ¬ (s.VIDEO_FIRST_PTS = AV_NOPTS_VALUE ∧ jPts = 0))
    (hctx : s.outputFormatContext = some ctx) (hst : ctx.stream s.videoStreamIndex = some st) :
    writeAVPacketFromEncodedData s jData jIsVideo jSize jFlags jPts jIsInterleave ret
      = ({ s with
            VIDEO_FIRST_PTS := if s.VIDEO_FIRST_PTS = AV_NOPTS_VALUE then jPts else s.VIDEO_FIRST_PTS,
            outputFormatContext := some { ctx with frames := ctx.frames ++
              [(decide (jIsInterleave = JNI_TRUE),
                { stream_index := s.videoStreamIndex,
                  pts := av_rescale_q (wrap64 (jPts -
                    (if s.VIDEO_FIRST_PTS = AV_NOPTS_VALUE then jPts else s.VIDEO_FIRST_PTS)))
                    AV_TIME_BASE_Q st.time_base,
                  dts := AV_NOPTS_VALUE, data := jData, size := jSize,
                  flags := if keyframeTest jIsVideo jFlags then Int.lor 0 AV_PKT_FLAG_KEY else 0 })] } },
          WriteResult.written
            { stream_index := s.videoStreamIndex,
              pts := av_rescale_q (wrap64 (jPts -
                (if s.VIDEO_FIRST_PTS = AV_NOPTS_VALUE then jPts else s.VIDEO_FIRST_PTS)))
                AV_TIME_BASE_Q st.time_base,
              dts := AV_NOPTS_VALUE, data := jData, size := jSize,
              flags := if keyframeTest jIsVideo jFlags then Int.lor 0 AV_PKT_FLAG_KEY else 0 } ret) := by
  unfold writeAVPacketFromEncodedData
  rw [if_neg (by simp [hv, hreg])]
  by_cases hu : s.VIDEO_FIRST_PTS = AV_NOPTS_VALUE
  · have hp : jPts ≠ 0 := fun h => hnd ⟨hu, h⟩
    simp [adjustPts, hv, hu, hp, hctx, hst]
  · simp [adjustPts, hv, hu, hctx, hst]

theorem write_audio_written (s : Session) (jData : Nat) (jIsVideo jSize jFlags jPts jIsInterleave ret : Int)
    (ctx : AVFormatContext) (st : AVStream)
    (hv : jIsVideo ≠ JNI_TRUE) (hreg : s.audioStreamIndex ≠ -1) (hch : s.AUDIO_CHANNELS ≠ 0)
    (hctx : s.outputFormatContext = some ctx) (hst : ctx.stream s.audioStreamIndex = some st) :
    writeAVPacketFromEncodedData s jData jIsVideo jSize jFlags jPts jIsInterleave ret
      = ({ s with
            AUDIO_FIRST_PTS := if s.AUDIO_FIRST_PTS = AV_NOPTS_VALUE
              then wrap64 (Int.tdiv jPts s.AUDIO_CHANNELS) else s.AUDIO_FIRST_PTS,
            outputFormatContext := some { ctx with frames := ctx.frames ++
              [(decide (jIsInterleave = JNI_TRUE),
                { stream_index := s.audioStreamIndex,
                  pts := av_rescale_q (wrap64 (wrap64 (Int.tdiv jPts s.AUDIO_CHANNELS) -
                    (if s.AUDIO_FIRST_PTS = AV_NOPTS_VALUE
                      then wrap64 (Int.tdiv jPts s.AUDIO_CHANNELS) else s.AUDIO_FIRST_PTS)))
                    AV_TIME_BASE_Q st.time_base,
                  dts := AV_NOPTS_VALUE, data := jData, size := jSize, flags := 0 })] } },
          WriteResult.written
            { stream_index := s.audioStreamIndex,
              pts := av_rescale_q (wrap64 (wrap64 (Int.tdiv jPts s.AUDIO_CHANNELS) -
                (if s.AUDIO_FIRST_PTS = AV_NOPTS_VALUE
                  then wrap64 (Int.tdiv jPts s.AUDIO_CHANNELS) else s.AUDIO_FIRST_PTS)))
                AV_TIME_BASE_Q st.time_base,
              dts := AV_NOPTS_VALUE, data := jData, size := jSize, flags := 0 } ret) := by
  unfold writeAVPacketFromEncodedData
  rw [if_neg (by simp [hv, hreg])]
  by_cases hu : s.AUDIO_FIRST_PTS = AV_NOPTS_VALUE
  · simp [adjustPts, keyframeTest, hv, hu, hch, hctx, hst]
  · simp [adjustPts, keyframeTest, hv, hu, hch, hctx, hst]

/-! ## Frame lemmas for opening and closing -/

theorem addVideoStream_frame (s : Session) (dest : AVFormatContext) (d : List Nat) (n : Int)
    (a : Option AVRational) :
    (addVideoStream s dest d n a).1.audioStreamIndex = s.audioStreamIndex ∧
    (addVideoStream s dest d n a).1.VIDEO_FIRST_PTS = s.VIDEO_FIRST_PTS ∧
    (addVideoStream s dest d n a).1.AUDIO_FIRST_PTS = s.AUDIO_FIRST_PTS ∧
    (addVideoStream s dest d n a).1.IS_RUNNING = s.IS_RUNNING ∧
    ((addVideoStream s dest d n a).2 < 0 → (addVideoStream s dest d n a).1 = s) := by
  cases a <;> simp [addVideoStream]

theorem addAudioStream_frame (s : Session) (dest : AVFormatContext) (d : List Nat) (n : Int)
    (a : Option AVRational) :
    (addAudioStream s dest d n a).1.videoStreamIndex = s.videoStreamIndex ∧
    (addAudioStream s dest d n a).1.VIDEO_FIRST_PTS = s.VIDEO_FIRST_PTS ∧
    (addAudioStream s dest d n a).1.AUDIO_FIRST_PTS = s.AUDIO_FIRST_PTS ∧
    (addAudioStream s dest d n a).1.IS_RUNNING = s.IS_RUNNING ∧
    ((addAudioStream s dest d n a).2 < 0 → (addAudioStream s dest d n a).1 = s) := by
  cases a <;> simp [addAudioStream]

theorem prepareStreams_frame (s : Session) (result : Int) (vd : List Nat) (vs : Int)
    (ad : List Nat) (as : Int) (lib : PrepareAnswers) :
    (prepareStreams s result vd vs ad as lib).1.VIDEO_FIRST_PTS = s.VIDEO_FIRST_PTS ∧
    (prepareStreams s result vd vs ad as lib).1.AUDIO_FIRST_PTS = s.AUDIO_FIRST_PTS ∧
    (prepareStreams s result vd vs ad as lib).1.IS_RUNNING = s.IS_RUNNING ∧
    (vs ≤ 0 → (prepareStreams s result vd vs ad as lib).1.videoStreamIndex = s.videoStreamIndex) ∧
    (as ≤ 0 → (prepareStreams s result vd vs ad as lib).1.audioStreamIndex = s.audioStreamIndex) := by
  unfold prepareStreams
  cases hc : s.outputFormatContext with
  | none =>
    simp only []
    split_ifs <;> simp [hc]
  | some ctx =>
    have hv := addVideoStream_frame s ctx vd vs lib.videoStream
    simp only []
    by_cases h1 : vs > 0
    · simp only [h1, if_true]
      by_cases h2 : (addVideoStream s ctx vd vs lib.videoStream).2 < 0
      · simp only [h2, if_true]
        rw [hv.2.2.2.2 h2]
        simp
      · simp only [h2, if_false]
        by_cases h3 : as > 0
        · simp only [h3, if_true]
          cases hc2 : (addVideoStream s ctx vd vs lib.videoStream).1.outputFormatContext with
          | none => simp [hv]; omega
          | some c2 =>
            have ha := addAudioStream_frame (addVideoStream s ctx vd vs lib.videoStream).1 c2 ad as
              lib.audioStream
            simp only []
            refine ⟨by rw [ha.2.1, hv.2.1], by rw [ha.2.2.1, hv.2.2.1], by rw [ha.2.2.2.1, hv.2.2.2.1],
              by omega, by omega⟩
        · simp only [h3, if_false]
          simp [hv]; omega
    · simp only [h1, if_false]
      by_cases h2 : result < 0
      · simp [h2]
      · simp only [h2, if_false]
        by_cases h3 : as > 0
        · simp only [h3, if_true, hc]
          have ha := addAudioStream_frame s ctx ad as lib.audioStream
          refine ⟨ha.2.1, ha.2.2.1, ha.2.2.2.1, fun _ => ha.1, by omega⟩
        · simp [h3]


theorem prepareOutput_frame (s : Session) (ctx : AVFormatContext) (d : Int) (lib : PrepareAnswers) :
    (prepareOutput s ctx d lib).1.videoStreamIndex = s.videoStreamIndex ∧
    (prepareOutput s ctx d lib).1.audioStreamIndex = s.audioStreamIndex ∧
    (prepareOutput s ctx d lib).1.VIDEO_FIRST_PTS = s.VIDEO_FIRST_PTS ∧
    (prepareOutput s ctx d lib).1.AUDIO_FIRST_PTS = s.AUDIO_FIRST_PTS ∧
    (prepareOutput s ctx d lib).1.outputFormatContext ≠ none := by
  unfold prepareOutput
  simp only []
  split_ifs <;> simp

theorem prepare_frame (s : Session) (path : String) (vd : List Nat) (vs : Int)
    (ad : List Nat) (as : Int) (d : Int) (lib : PrepareAnswers) :
    (prepareAVFormatContext s path vd vs ad as d lib).1.VIDEO_FIRST_PTS = s.VIDEO_FIRST_PTS ∧
    (prepareAVFormatContext s path vd vs ad as d lib).1.AUDIO_FIRST_PTS = s.AUDIO_FIRST_PTS ∧
    (vs ≤ 0 → (prepareAVFormatContext s path vd vs ad as d lib).1.videoStreamIndex
      = s.videoStreamIndex) ∧
    (as ≤ 0 → (prepareAVFormatContext s path vd vs ad as d lib).1.audioStreamIndex
      = s.audioStreamIndex) := by
  unfold prepareAVFormatContext
  simp only []
  by_cases h1 : lib.allocResult < 0
  · simp [h1, ffmpeg_init]
  · simp only [h1, if_false]
    have hs := prepareStreams_frame
      { ffmpeg_init s with outputPath := path, outputFormatContext := some newContext }
      lib.allocResult vd vs ad as lib
    simp only [ffmpeg_init] at hs ⊢
    by_cases h2 : (prepareStreams
        { s with IS_RUNNING := 0, outputPath := path, outputFormatContext := some newContext }
        lib.allocResult vd vs ad as lib).2 < 0
    · simp only [h2, if_true]
      exact ⟨hs.1, hs.2.1, hs.2.2.2.1, hs.2.2.2.2⟩
    · simp only [h2, if_false]
      split
      · rename_i ctx hctx
        have ho := prepareOutput_frame (prepareStreams
          { s with IS_RUNNING := 0, outputPath := path, outputFormatContext := some newContext }
          lib.allocResult vd vs ad as lib).1 ctx d lib
        refine ⟨by rw [ho.2.2.1, hs.1], by rw [ho.2.2.2.1, hs.2.1], fun h => ?_, fun h => ?_⟩
        · rw [ho.1, hs.2.2.2.1 h]
        · rw [ho.2.1, hs.2.2.2.2 h]
      · exact ⟨hs.1, hs.2.1, hs.2.2.2.1, hs.2.2.2.2⟩

theorem finalize_resets (s s1 : Session) (h : finalizeAVFormatContext s = some s1) :
    s1.videoStreamIndex = -1 ∧ s1.audioStreamIndex = -1 ∧
    s1.VIDEO_FIRST_PTS = AV_NOPTS_VALUE ∧ s1.AUDIO_FIRST_PTS = AV_NOPTS_VALUE ∧
    s1.IS_RUNNING = 0 := by
  unfold finalizeAVFormatContext at h
  split_ifs at h <;>
  · simp only [Option.some.injEq] at h
    subst h
    simp

theorem write_fields (s : Session) (jData : Nat) (jIsVideo jSize jFlags jPts jIsInterleave ret : Int) :
    (writeAVPacketFromEncodedData s jData jIsVideo jSize jFlags jPts jIsInterleave ret).1.videoStreamIndex
      = s.videoStreamIndex ∧
    (writeAVPacketFromEncodedData s jData jIsVideo jSize jFlags jPts jIsInterleave ret).1.audioStreamIndex
      = s.audioStreamIndex ∧
    (writeAVPacketFromEncodedData s jData jIsVideo jSize jFlags jPts jIsInterleave ret).1.AUDIO_CHANNELS
      = s.AUDIO_CHANNELS ∧
    (writeAVPacketFromEncodedData s jData jIsVideo jSize jFlags jPts jIsInterleave ret).1.IS_RUNNING
      = s.IS_RUNNING ∧
    (s.VIDEO_FIRST_PTS ≠ AV_NOPTS_VALUE ∨ jIsVideo ≠ JNI_TRUE →
      (writeAVPacketFromEncodedData s jData jIsVideo jSize jFlags jPts jIsInterleave ret).1.VIDEO_FIRST_PTS
        = s.VIDEO_FIRST_PTS) ∧
    (s.AUDIO_FIRST_PTS ≠ AV_NOPTS_VALUE ∨ jIsVideo = JNI_TRUE →
      (writeAVPacketFromEncodedData s jData jIsVideo jSize jFlags jPts jIsInterleave ret).1.AUDIO_FIRST_PTS
        = s.AUDIO_FIRST_PTS) := by
  by_cases hi : (jIsVideo = JNI_TRUE ∧ s.videoStreamIndex = -1) ∨
      (jIsVideo ≠ JNI_TRUE ∧ s.audioStreamIndex = -1)
  · rw [write_ignored s jData jIsVideo jSize jFlags jPts jIsInterleave ret hi]
    simp
  · unfold writeAVPacketFromEncodedData
    rw [if_neg hi]
    unfold adjustPts
    by_cases hv : jIsVideo = JNI_TRUE
    · by_cases hu : s.VIDEO_FIRST_PTS = AV_NOPTS_VALUE
      · by_cases hp : jPts = 0
        · simp [hv, hu, hp]
        · cases hc : s.outputFormatContext with
          | none => simp [hv, hu, hp, hc]
          | some ctx =>
            cases hst : ctx.stream s.videoStreamIndex with
            | none => simp [hv, hu, hp, hc, hst]
            | some st => simp [hv, hu, hp, hc, hst]
      · cases hc : s.outputFormatContext with
        | none => simp [hv, hu, hc]
        | some ctx =>
          cases hst : ctx.stream s.videoStreamIndex with
          | none => simp [hv, hu, hc, hst]
          | some st => simp [hv, hu, hc, hst]
    · by_cases hch : s.AUDIO_CHANNELS = 0
      · simp [hv, hch]
      · by_cases hu : s.AUDIO_FIRST_PTS = AV_NOPTS_VALUE
        · cases hc : s.outputFormatContext with
          | none => simp [hv, hu, hch, hc]
          | some ctx =>
            cases hst : ctx.stream s.audioStreamIndex with
            | none => simp [hv, hu, hch, hc, hst]
            | some st => simp [hv, hu, hch, hc, hst]
        · cases hc : s.outputFormatContext with
          | none => simp [hv, hu, hch, hc]
          | some ctx =>
            cases hst : ctx.stream s.audioStreamIndex with
            | none => simp [hv, hu, hch, hc, hst]
            | some st => simp [hv, hu, hch, hc, hst]


theorem write_result (s : Session) (jData : Nat) (jIsVideo jSize jFlags jPts jIsInterleave ret : Int) :
    ((writeAVPacketFromEncodedData s jData jIsVideo jSize jFlags jPts jIsInterleave ret).2
        = WriteResult.ignored ↔
      ((jIsVideo = JNI_TRUE ∧ s.videoStreamIndex = -1) ∨
        (jIsVideo ≠ JNI_TRUE ∧ s.audioStreamIndex = -1))) ∧
    ((writeAVPacketFromEncodedData s jData jIsVideo jSize jFlags jPts jIsInterleave ret).2
        = WriteResult.dropped ↔
      (jIsVideo = JNI_TRUE ∧ s.videoStreamIndex ≠ -1 ∧ s.VIDEO_FIRST_PTS = AV_NOPTS_VALUE ∧ jPts = 0)) := by
  by_cases hi : (jIsVideo = JNI_TRUE ∧ s.videoStreamIndex = -1) ∨
      (jIsVideo ≠ JNI_TRUE ∧ s.audioStreamIndex = -1)
  · rw [write_ignored s jData jIsVideo jSize jFlags jPts jIsInterleave ret hi]
    simp only [true_iff, hi, false_iff, reduceCtorEq]
    rcases hi with h | h
    · exact ⟨trivial, fun h2 => h2.2.1 h.2⟩
    · exact ⟨trivial, fun h2 => h.1 h2.1⟩
  · unfold writeAVPacketFromEncodedData
    rw [if_neg hi]
    unfold adjustPts
    by_cases hv : jIsVideo = JNI_TRUE
    · have hreg : s.videoStreamIndex ≠ -1 := fun h => hi (Or.inl ⟨hv, h⟩)
      by_cases hu : s.VIDEO_FIRST_PTS = AV_NOPTS_VALUE
      · by_cases hp : jPts = 0
        · simp [hv, hu, hp, hreg]
        · cases hc : s.outputFormatContext with
          | none => simp [hv, hu, hp, hc, hreg]
          | some ctx =>
            cases hst : ctx.stream s.videoStreamIndex with
            | none => simp [hv, hu, hp, hc, hst, hreg]
            | some st => simp [hv, hu, hp, hc, hst, hreg]
      · cases hc : s.outputFormatContext with
        | none => simp [hv, hu, hc, hreg]
        | some ctx =>
          cases hst : ctx.stream s.videoStreamIndex with
          | none => simp [hv, hu, hc, hst, hreg]
          | some st => simp [hv, hu, hc, hst, hreg]
    · have hreg : s.audioStreamIndex ≠ -1 := fun h => hi (Or.inr ⟨hv, h⟩)
      by_cases hch : s.AUDIO_CHANNELS = 0
      · simp [hv, hch, hreg]
      · by_cases hu : s.AUDIO_FIRST_PTS = AV_NOPTS_VALUE
        · cases hc : s.outputFormatContext with
          | none => simp [hv, hu, hch, hc, hreg]
          | some ctx =>
            cases hst : ctx.stream s.audioStreamIndex with
            | none => simp [hv, hu, hch, hc, hst, hreg]
            | some st => simp [hv, hu, hch, hc, hst, hreg]
        · cases hc : s.outputFormatContext with
          | none => simp [hv, hu, hch, hc, hreg]
          | some ctx =>
            cases hst : ctx.stream s.audioStreamIndex with
            | none => simp [hv, hu, hch, hc, hst, hreg]
            | some st => simp [hv, hu, hch, hc, hst, hreg]

/-! ## Packets of an unregistered track, and the dropped first video packet -/

/-- C6: a packet whose track is not registered (its stream index is -1) is
ignored by `writeAVPacketFromEncodedData`: the call returns at line 328 with the
whole session, writer included, unchanged, whatever the timestamp, flags, size
and payload; the call is ignored exactly when the packet kind and the stream
indices say so.  This covers the initial globals, every session produced by
`finalizeAVFormatContext`, and a session opened from unregistered indices
without the stream of the packet. -/
theorem write_unregistered_track_is_noop :
    (∀ (s : Session) (jData : Nat) (jIsVideo jSize jFlags jPts jIsInterleave ret : Int),
      ((jIsVideo = JNI_TRUE ∧ s.videoStreamIndex = -1) ∨
        (jIsVideo ≠ JNI_TRUE ∧ s.audioStreamIndex = -1)) →
      writeAVPacketFromEncodedData s jData jIsVideo jSize jFlags jPts jIsInterleave ret
        = (s, WriteResult.ignored)) ∧
    (∀ (s : Session) (jData : Nat) (jIsVideo jSize jFlags jPts jIsInterleave ret : Int),
      (writeAVPacketFromEncodedData s jData jIsVideo jSize jFlags jPts jIsInterleave ret).2
        = WriteResult.ignored ↔
      ((jIsVideo = JNI_TRUE ∧ s.videoStreamIndex = -1) ∨
        (jIsVideo ≠ JNI_TRUE ∧ s.audioStreamIndex = -1))) ∧
    (∀ c : WriteCall, writeCall initialSession c = (initialSession, WriteResult.ignored)) ∧
    (∀ (s s1 : Session) (c : WriteCall), finalizeAVFormatContext s = some s1 →
      writeCall s1 c = (s1, WriteResult.ignored)) ∧
    (∀ (s : Session) (path : String) (vd : List Nat) (vs : Int) (ad : List Nat) (as d : Int)
      (lib : PrepareAnswers) (c : WriteCall),
      s.videoStreamIndex = -1 → vs ≤ 0 → c.jIsVideo = JNI_TRUE →
      writeCall (prepareAVFormatContext s path vd vs ad as d lib).1 c
        = ((prepareAVFormatContext s path vd vs ad as d lib).1, WriteResult.ignored)) ∧
    (∀ (s : Session) (path : String) (vd : List Nat) (vs : Int) (ad : List Nat) (as d : Int)
      (lib : PrepareAnswers) (c : WriteCall),
      s.audioStreamIndex = -1 → as ≤ 0 → c.jIsVideo ≠ JNI_TRUE →
      writeCall (prepareAVFormatContext s path vd vs ad as d lib).1 c
        = ((prepareAVFormatContext s path vd vs ad as d lib).1, WriteResult.ignored)) := by
  refine ⟨write_ignored, fun s jData jIsVideo jSize jFlags jPts jIsInterleave ret =>
    (write_result s jData jIsVideo jSize jFlags jPts jIsInterleave ret).1, ?_, ?_, ?_, ?_⟩
  · intro c
    apply write_ignored
    by_cases h : c.jIsVideo = JNI_TRUE
    · exact Or.inl ⟨h, rfl⟩
    · exact Or.inr ⟨h, rfl⟩
  · intro s s1 c h
    have hr := finalize_resets s s1 h
    apply write_ignored
    by_cases hv : c.jIsVideo = JNI_TRUE
    · exact Or.inl ⟨hv, hr.1⟩
    · exact Or.inr ⟨hv, hr.2.1⟩
  · intro s path vd vs ad as d lib c hs hvs hc
    apply write_ignored
    exact Or.inl ⟨hc, by rw [(prepare_frame s path vd vs ad as d lib).2.2.1 hvs, hs]⟩
  · intro s path vd vs ad as d lib c hs has hc
    apply write_ignored
    exact Or.inr ⟨hc, by rw [(prepare_frame s path vd vs ad as d lib).2.2.2 has, hs]⟩

/-- Witness for C6: a video packet written to the initial globals. -/
theorem write_unregistered_track_is_noop_witness :
    writeAVPacketFromEncodedData initialSession 7 1 100 1 3000 1 0
      = (initialSession, WriteResult.ignored) :=
  write_unregistered_track_is_noop.1 initialSession 7 1 100 1 3000 1 0 (Or.inl ⟨rfl, rfl⟩)

/-- C2: while the video track is registered and `VIDEO_FIRST_PTS` is unset, a
video packet with raw PTS 0 is dropped: the call returns at line 354, nothing
is handed to the container writer and the session, anchor included, is
unchanged, so a second such packet is dropped as well.  A call is dropped only
for a video packet with PTS 0 while the anchor is unset.  The first video
packet with a non-zero PTS sets the anchor to its PTS and is forwarded, and a
video packet with PTS 0 after the anchor is set is forwarded too. -/
theorem video_zero_pts_dropped_until_anchored :
    (∀ (s : Session) (jData : Nat) (jSize jFlags jIsInterleave ret : Int),
      s.videoStreamIndex ≠ -1 → s.VIDEO_FIRST_PTS = AV_NOPTS_VALUE →
      writeAVPacketFromEncodedData s jData JNI_TRUE jSize jFlags 0 jIsInterleave ret
        = (s, WriteResult.dropped)) ∧
    (∀ (s : Session) (c1 c2 : WriteCall),
      s.videoStreamIndex ≠ -1 → s.VIDEO_FIRST_PTS = AV_NOPTS_VALUE →
      c1.jIsVideo = JNI_TRUE → c1.jPts = 0 → c2.jIsVideo = JNI_TRUE → c2.jPts = 0 →
      writeCall s c1 = (s, WriteResult.dropped) ∧
      writeCall (writeCall s c1).1 c2 = (s, WriteResult.dropped)) ∧
    (∀ (s : Session) (jData : Nat) (jIsVideo jSize jFlags jPts jIsInterleave ret : Int),
      (writeAVPacketFromEncodedData s jData jIsVideo jSize jFlags jPts jIsInterleave ret).2
        = WriteResult.dropped →
      jIsVideo = JNI_TRUE ∧ s.VIDEO_FIRST_PTS = AV_NOPTS_VALUE ∧ jPts = 0) ∧
    (∀ (s : Session) (ctx : AVFormatContext) (st : AVStream) (jData : Nat)
      (jSize jFlags jPts jIsInterleave ret : Int),
      s.videoStreamIndex ≠ -1 → s.VIDEO_FIRST_PTS = AV_NOPTS_VALUE → jPts ≠ 0 →
      s.outputFormatContext = some ctx → ctx.stream s.videoStreamIndex = some st →
      ∃ pkt : AVPacket,
        writeAVPacketFromEncodedData s jData JNI_TRUE jSize jFlags jPts jIsInterleave ret
          = ({ s with VIDEO_FIRST_PTS := jPts,
                      outputFormatContext := some { ctx with frames := ctx.frames ++
                        [(decide (jIsInterleave = JNI_TRUE), pkt)] } },
             WriteResult.written pkt ret) ∧
        pkt.stream_index = s.videoStreamIndex ∧ pkt.data = jData ∧ pkt.size = jSize) ∧
    (∀ (s : Session) (ctx : AVFormatContext) (st : AVStream) (jData : Nat)
      (jSize jFlags jIsInterleave ret : Int),
      s.videoStreamIndex ≠ -1 → s.VIDEO_FIRST_PTS ≠ AV_NOPTS_VALUE →
      s.outputFormatContext = some ctx → ctx.stream s.videoStreamIndex = some st →
      ∃ pkt : AVPacket,
        writeAVPacketFromEncodedData s jData JNI_TRUE jSize jFlags 0 jIsInterleave ret
          = ({ s with outputFormatContext := some { ctx with frames := ctx.frames ++
                        [(decide (jIsInterleave = JNI_TRUE), pkt)] } },
             WriteResult.written pkt ret) ∧
        pkt.stream_index = s.videoStreamIndex ∧ pkt.data = jData ∧ pkt.size = jSize) := by
  refine ⟨?_, ?_, ?_, ?_, ?_⟩
  · intro s jData jSize jFlags jIsInterleave ret hreg hun
    exact write_video_dropped s jData JNI_TRUE jSize jFlags 0 jIsInterleave ret rfl hreg hun rfl
  · intro s c1 c2 hreg hun h1 hp1 h2 hp2
    have e1 : writeCall s c1 = (s, WriteResult.dropped) :=
      write_video_dropped s c1.jData c1.jIsVideo c1.jSize c1.jFlags c1.jPts c1.jIsInterleave
        c1.ret h1 hreg hun hp1
    refine ⟨e1, ?_⟩
    rw [e1]
    exact write_video_dropped s c2.jData c2.jIsVideo c2.jSize c2.jFlags c2.jPts c2.jIsInterleave
      c2.ret h2 hreg hun hp2
  · intro s jData jIsVideo jSize jFlags jPts jIsInterleave ret h
    have := (write_result s jData jIsVideo jSize jFlags jPts jIsInterleave ret).2.1 h
    exact ⟨this.1, this.2.2.1, this.2.2.2⟩
  · intro s ctx st jData jSize jFlags jPts jIsInterleave ret hreg hun hp hctx hst
    refine ⟨{ stream_index := s.videoStreamIndex,
              pts := av_rescale_q (wrap64 (jPts - jPts)) AV_TIME_BASE_Q st.time_base,
              dts := AV_NOPTS_VALUE, data := jData, size := jSize,
              flags := if keyframeTest JNI_TRUE jFlags then Int.lor 0 AV_PKT_FLAG_KEY else 0 },
      ?_, rfl, rfl, rfl⟩
    rw [write_video_written s jData JNI_TRUE jSize jFlags jPts jIsInterleave ret ctx st rfl hreg
      (fun h => hp h.2) hctx hst]
    simp [hun]
  · intro s ctx st jData jSize jFlags jIsInterleave ret hreg hset hctx hst
    refine ⟨{ stream_index := s.videoStreamIndex,
              pts := av_rescale_q (wrap64 (0 - s.VIDEO_FIRST_PTS)) AV_TIME_BASE_Q st.time_base,
              dts := AV_NOPTS_VALUE, data := jData, size := jSize,
              flags := if keyframeTest JNI_TRUE jFlags then Int.lor 0 AV_PKT_FLAG_KEY else 0 },
      ?_, rfl, rfl, rfl⟩
    rw [write_video_written s jData JNI_TRUE jSize jFlags 0 jIsInterleave ret ctx st rfl hreg
      (fun h => hset h.1) hctx hst]
    simp [hset]

/-- Witness for C2: in the session just opened with both tracks, a video packet
with PTS 0 is dropped and the next one, with PTS 3000, sets the anchor. -/
theorem video_zero_pts_dropped_until_anchored_witness :
    writeAVPacketFromEncodedData openedSession 7 JNI_TRUE 100 1 0 1 0
      = (openedSession, WriteResult.dropped) ∧
    (writeAVPacketFromEncodedData openedSession 7 JNI_TRUE 100 1 3000 1 0).1.VIDEO_FIRST_PTS
      = 3000 := by
  refine ⟨video_zero_pts_dropped_until_anchored.1 openedSession 7 100 1 1 0 (by decide) (by decide), ?_⟩
  decide

/-! ## Anchors over sequences of calls -/

theorem writeAll_cons (s : Session) (c : WriteCall) (cs : List WriteCall) :
    writeAll s (c :: cs) =
      if (writeCall s c).2 = WriteResult.divisionByZero ∨ (writeCall s c).2 = WriteResult.badStream
      then (writeCall s c).1 else writeAll (writeCall s c).1 cs := by
  cases h : writeCall s c with
  | mk s1 r => cases r <;> simp [writeAll, h]

theorem writeAll_anchors (cs : List WriteCall) : ∀ s : Session,
    (s.VIDEO_FIRST_PTS ≠ AV_NOPTS_VALUE → (writeAll s cs).VIDEO_FIRST_PTS = s.VIDEO_FIRST_PTS) ∧
    (s.AUDIO_FIRST_PTS ≠ AV_NOPTS_VALUE → (writeAll s cs).AUDIO_FIRST_PTS = s.AUDIO_FIRST_PTS) := by
  induction cs with
  | nil => intro s; simp [writeAll]
  | cons c cs ih =>
    intro s
    have hf := write_fields s c.jData c.jIsVideo c.jSize c.jFlags c.jPts c.jIsInterleave c.ret
    have hv : s.VIDEO_FIRST_PTS ≠ AV_NOPTS_VALUE →
        (writeCall s c).1.VIDEO_FIRST_PTS = s.VIDEO_FIRST_PTS := fun h => hf.2.2.2.2.1 (Or.inl h)
    have ha : s.AUDIO_FIRST_PTS ≠ AV_NOPTS_VALUE →
        (writeCall s c).1.AUDIO_FIRST_PTS = s.AUDIO_FIRST_PTS := fun h => hf.2.2.2.2.2 (Or.inl h)
    rw [writeAll_cons]
    split_ifs
    · exact ⟨hv, ha⟩
    · constructor
      · intro h
        rw [(ih (writeCall s c).1).1 (by rw [hv h]; exact h), hv h]
      · intro h
        rw [(ih (writeCall s c).1).2 (by rw [ha h]; exact h), ha h]

/-- C5: once `VIDEO_FIRST_PTS` or `AUDIO_FIRST_PTS` differs from
`AV_NOPTS_VALUE`, no call of `writeAVPacketFromEncodedData`, for a packet of
either track and whatever the container writer returns, changes it, and neither
does any sequence of such calls; a video packet never changes the audio anchor
and an audio packet never changes the video anchor; `prepareAVFormatContext`
and `setAVOptions` leave both anchors as they are, and `finalizeAVFormatContext`
resets both to `AV_NOPTS_VALUE`. -/
theorem anchors_fixed_once_set :
    (∀ (s : Session) (c : WriteCall), s.VIDEO_FIRST_PTS ≠ AV_NOPTS_VALUE →
      (writeCall s c).1.VIDEO_FIRST_PTS = s.VIDEO_FIRST_PTS) ∧
    (∀ (s : Session) (c : WriteCall), s.AUDIO_FIRST_PTS ≠ AV_NOPTS_VALUE →
      (writeCall s c).1.AUDIO_FIRST_PTS = s.AUDIO_FIRST_PTS) ∧
    (∀ (s : Session) (c : WriteCall), c.jIsVideo = JNI_TRUE →
      (writeCall s c).1.AUDIO_FIRST_PTS = s.AUDIO_FIRST_PTS) ∧
    (∀ (s : Session) (c : WriteCall), c.jIsVideo ≠ JNI_TRUE →
      (writeCall s c).1.VIDEO_FIRST_PTS = s.VIDEO_FIRST_PTS) ∧
    (∀ (s : Session) (cs : List WriteCall), s.VIDEO_FIRST_PTS ≠ AV_NOPTS_VALUE →
      (writeAll s cs).VIDEO_FIRST_PTS = s.VIDEO_FIRST_PTS) ∧
    (∀ (s : Session) (cs : List WriteCall), s.AUDIO_FIRST_PTS ≠ AV_NOPTS_VALUE →
      (writeAll s cs).AUDIO_FIRST_PTS = s.AUDIO_FIRST_PTS) ∧
    (∀ (s : Session) (path : String) (vd : List Nat) (vs : Int) (ad : List Nat) (as d : Int)
      (lib : PrepareAnswers),
      (prepareAVFormatContext s path vd vs ad as d lib).1.VIDEO_FIRST_PTS = s.VIDEO_FIRST_PTS ∧
      (prepareAVFormatContext s path vd vs ad as d lib).1.AUDIO_FIRST_PTS = s.AUDIO_FIRST_PTS) ∧
    (∀ (s : Session) (h w r n t : Int) (f : String),
      (setAVOptions s h w r n t f).VIDEO_FIRST_PTS = s.VIDEO_FIRST_PTS ∧
      (setAVOptions s h w r n t f).AUDIO_FIRST_PTS = s.AUDIO_FIRST_PTS) ∧
    (∀ (s s1 : Session), finalizeAVFormatContext s = some s1 →
      s1.VIDEO_FIRST_PTS = AV_NOPTS_VALUE ∧ s1.AUDIO_FIRST_PTS = AV_NOPTS_VALUE) := by
  refine ⟨?_, ?_, ?_, ?_, ?_, ?_, ?_, fun s h w r n t f => ⟨rfl, rfl⟩, ?_⟩
  · intro s c h
    exact (write_fields s c.jData c.jIsVideo c.jSize c.jFlags c.jPts c.jIsInterleave
      c.ret).2.2.2.2.1 (Or.inl h)
  · intro s c h
    exact (write_fields s c.jData c.jIsVideo c.jSize c.jFlags c.jPts c.jIsInterleave
      c.ret).2.2.2.2.2 (Or.inl h)
  · intro s c h
    exact (write_fields s c.jData c.jIsVideo c.jSize c.jFlags c.jPts c.jIsInterleave
      c.ret).2.2.2.2.2 (Or.inr h)
  · intro s c h
    exact (write_fields s c.jData c.jIsVideo c.jSize c.jFlags c.jPts c.jIsInterleave
      c.ret).2.2.2.2.1 (Or.inr h)
  · intro s cs h
    exact (writeAll_anchors cs s).1 h
  · intro s cs h
    exact (writeAll_anchors cs s).2 h
  · intro s path vd vs ad as d lib
    exact ⟨(prepare_frame s path vd vs ad as d lib).1, (prepare_frame s path vd vs ad as d lib).2.1⟩
  · intro s s1 h
    exact ⟨(finalize_resets s s1 h).2.2.1, (finalize_resets s s1 h).2.2.2.1⟩

/-- Witness for C5: after the video anchor of the opened session is set to 3000,
a later video packet with PTS 9000 and a failing writer leaves it at 3000. -/
theorem anchors_fixed_once_set_witness :
    (writeCall (writeCall openedSession ⟨7, 1, 100, 1, 3000, 1, 0⟩).1
      ⟨8, 1, 100, 0, 9000, 1, -5⟩).1.VIDEO_FIRST_PTS = 3000 :=
  (anchors_fixed_once_set.1 (writeCall openedSession ⟨7, 1, 100, 1, 3000, 1, 0⟩).1
    ⟨8, 1, 100, 0, 9000, 1, -5⟩ (by decide)).trans (by decide)

/-! ## The keyframe flag -/

theorem land_one_ne_zero_iff (x : Int) : Int.land x 1 ≠ 0 ↔ x % 2 = 1 := by
  rw [land_one]; omega

theorem keyframeTest_iff (jIsVideo jFlags : Int) :
    keyframeTest jIsVideo jFlags ↔ (jIsVideo = JNI_TRUE ∧ Int.land jFlags 1 ≠ 0) := by
  unfold keyframeTest cBool
  simp

theorem write_written_flags (s : Session) (jData : Nat)
    (jIsVideo jSize jFlags jPts jIsInterleave ret : Int) (pkt : AVPacket) (r : Int)
    (h : (writeAVPacketFromEncodedData s jData jIsVideo jSize jFlags jPts jIsInterleave ret).2
      = WriteResult.written pkt r) :
    pkt.flags = (if keyframeTest jIsVideo jFlags then Int.lor 0 AV_PKT_FLAG_KEY else 0) ∧
    pkt.data = jData ∧ pkt.size = jSize ∧ pkt.dts = AV_NOPTS_VALUE ∧ r = ret ∧
    pkt.stream_index = (if jIsVideo = JNI_TRUE then s.videoStreamIndex else s.audioStreamIndex) := by
  by_cases hi : (jIsVideo = JNI_TRUE ∧ s.videoStreamIndex = -1) ∨
      (jIsVideo ≠ JNI_TRUE ∧ s.audioStreamIndex = -1)
  · rw [write_ignored s jData jIsVideo jSize jFlags jPts jIsInterleave ret hi] at h
    exact absurd h (by simp)
  · by_cases hv : jIsVideo = JNI_TRUE
    · have hreg : s.videoStreamIndex ≠ -1 := fun h => hi (Or.inl ⟨hv, h⟩)
      by_cases hnd : s.VIDEO_FIRST_PTS = AV_NOPTS_VALUE ∧ jPts = 0
      · rw [write_video_dropped s jData jIsVideo jSize jFlags jPts jIsInterleave ret hv hreg
          hnd.1 hnd.2] at h
        exact absurd h (by simp)
      · cases hc : s.outputFormatContext with
        | none =>
          exfalso
          revert h
          unfold writeAVPacketFromEncodedData adjustPts
          rw [if_neg hi]
          by_cases hu : s.VIDEO_FIRST_PTS = AV_NOPTS_VALUE
          · have hp : jPts ≠ 0 := fun h => hnd ⟨hu, h⟩
            simp [hv, hu, hp, hc]
          · simp [hv, hu, hc]
        | some ctx =>
          cases hst : ctx.stream s.videoStreamIndex with
          | none =>
            exfalso
            revert h
            unfold writeAVPacketFromEncodedData adjustPts
            rw [if_neg hi]
            by_cases hu : s.VIDEO_FIRST_PTS = AV_NOPTS_VALUE
            · have hp : jPts ≠ 0 := fun h => hnd ⟨hu, h⟩
              simp [hv, hu, hp, hc, hst]
            · simp [hv, hu, hc, hst]
          | some st =>
            rw [write_video_written s jData jIsVideo jSize jFlags jPts jIsInterleave ret ctx st hv
              hreg hnd hc hst] at h
            simp only [WriteResult.written.injEq] at h
            obtain ⟨h1, h2⟩ := h
            subst h1
            simp [hv, h2]
    · have hreg : s.audioStreamIndex ≠ -1 := fun h => hi (Or.inr ⟨hv, h⟩)
      have hk : ¬ keyframeTest jIsVideo jFlags := fun hk => hv hk.1
      by_cases hch : s.AUDIO_CHANNELS = 0
      · exfalso
        revert h
        unfold writeAVPacketFromEncodedData adjustPts
        rw [if_neg hi]
        simp [hv, hch]
      · cases hc : s.outputFormatContext with
        | none =>
          exfalso
          revert h
          unfold writeAVPacketFromEncodedData adjustPts
          rw [if_neg hi]
          by_cases hu : s.AUDIO_FIRST_PTS = AV_NOPTS_VALUE
          · simp [hv, hu, hch, hc]
          · simp [hv, hu, hch, hc]
        | some ctx =>
          cases hst : ctx.stream s.audioStreamIndex with
          | none =>
            exfalso
            revert h
            unfold writeAVPacketFromEncodedData adjustPts
            rw [if_neg hi]
            by_cases hu : s.AUDIO_FIRST_PTS = AV_NOPTS_VALUE
            · simp [hv, hu, hch, hc, hst]
            · simp [hv, hu, hch, hc, hst]
          | some st =>
            rw [write_audio_written s jData jIsVideo jSize jFlags jPts jIsInterleave ret ctx st hv
              hreg hch hc hst] at h
            simp only [WriteResult.written.injEq] at h
            obtain ⟨h1, h2⟩ := h
            subst h1
            simp [hv, h2, hk]

/-- C10: the packet handed to the container writer carries `AV_PKT_FLAG_KEY`
exactly when the packet is video and bit 0 of `jFlags` is set, and carries no
flag otherwise.  The condition of line 371, parsed by C as
`jFlags & (1 > 0)`, has for every integer `jFlags` the truth value of the
bitmask test `(jFlags & 1) != 0`, which is also that of `(jFlags & 1) > 0` and of
"`jFlags` is odd"; an audio packet is written with `flags = 0` whatever its
`jFlags`. -/
theorem keyframe_flag_iff_video_and_bit0 :
    (∀ jIsVideo jFlags : Int,
      keyframeTest jIsVideo jFlags ↔ (jIsVideo = JNI_TRUE ∧ Int.land jFlags 1 ≠ 0)) ∧
    (∀ jFlags : Int,
      Int.land jFlags (cBool ((1 : Int) > 0)) ≠ 0 ↔ Int.land jFlags 1 ≠ 0) ∧
    (∀ jFlags : Int, Int.land jFlags 1 ≠ 0 ↔ Int.land jFlags 1 > 0) ∧
    (∀ jFlags : Int, Int.land jFlags 1 ≠ 0 ↔ jFlags % 2 = 1) ∧
    (∀ (s : Session) (jData : Nat) (jIsVideo jSize jFlags jPts jIsInterleave ret : Int)
      (pkt : AVPacket) (r : Int),
      (writeAVPacketFromEncodedData s jData jIsVideo jSize jFlags jPts jIsInterleave ret).2
        = WriteResult.written pkt r →
      pkt.flags = (if jIsVideo = JNI_TRUE ∧ Int.land jFlags 1 ≠ 0 then AV_PKT_FLAG_KEY else 0)) ∧
    (∀ (s : Session) (jData : Nat) (jIsVideo jSize jFlags jPts jIsInterleave ret : Int)
      (pkt : AVPacket) (r : Int),
      jIsVideo ≠ JNI_TRUE →
      (writeAVPacketFromEncodedData s jData jIsVideo jSize jFlags jPts jIsInterleave ret).2
        = WriteResult.written pkt r →
      pkt.flags = 0) := by
  refine ⟨keyframeTest_iff, ?_, ?_, land_one_ne_zero_iff, ?_, ?_⟩
  · intro jFlags
    simp [cBool]
  · intro jFlags
    rw [land_one]; omega
  · intro s jData jIsVideo jSize jFlags jPts jIsInterleave ret pkt r h
    rw [(write_written_flags s jData jIsVideo jSize jFlags jPts jIsInterleave ret pkt r h).1]
    by_cases hk : keyframeTest jIsVideo jFlags
    · rw [if_pos hk, if_pos ((keyframeTest_iff jIsVideo jFlags).1 hk)]
      decide
    · rw [if_neg hk, if_neg (fun h => hk ((keyframeTest_iff jIsVideo jFlags).2 h))]
  · intro s jData jIsVideo jSize jFlags jPts jIsInterleave ret pkt r hv h
    rw [(write_written_flags s jData jIsVideo jSize jFlags jPts jIsInterleave ret pkt r h).1]
    rw [if_neg (fun hk => hv hk.1)]

/-- Witness for C10: in the opened session a video packet with `jFlags = 3` and
PTS 3000 is written as the packet below, whose flag field is the keyframe
flag. -/
theorem keyframe_flag_iff_video_and_bit0_witness :
    (writeAVPacketFromEncodedData openedSession 7 1 100 3 3000 1 0).2
      = WriteResult.written ⟨0, 0, AV_NOPTS_VALUE, 7, 100, 1⟩ 0 ∧
    (⟨0, 0, AV_NOPTS_VALUE, 7, 100, 1⟩ : AVPacket).flags
      = (if (1 : Int) = JNI_TRUE ∧ Int.land 3 1 ≠ 0 then AV_PKT_FLAG_KEY else 0) :=
  ⟨by decide, keyframe_flag_iff_video_and_bit0.2.2.2.2.1 openedSession 7 1 100 3 3000 1 0
    ⟨0, 0, AV_NOPTS_VALUE, 7, 100, 1⟩ 0 (by decide)⟩

/-! ## Audio timestamps -/

theorem adjustPts_audio (s : Session) (jIsVideo jPts : Int) (hv : jIsVideo ≠ JNI_TRUE)
    (hc : 1 ≤ s.AUDIO_CHANNELS) (hp : isInt64 jPts) :
    adjustPts s jIsVideo jPts =
      Adjusted.ok
        { s with AUDIO_FIRST_PTS := if s.AUDIO_FIRST_PTS = AV_NOPTS_VALUE
            then Int.tdiv jPts s.AUDIO_CHANNELS else s.AUDIO_FIRST_PTS }
        s.audioStreamIndex
        (wrap64 (Int.tdiv jPts s.AUDIO_CHANNELS -
          (if s.AUDIO_FIRST_PTS = AV_NOPTS_VALUE
            then Int.tdiv jPts s.AUDIO_CHANNELS else s.AUDIO_FIRST_PTS))) := by
  have hq : wrap64 (Int.tdiv jPts s.AUDIO_CHANNELS) = Int.tdiv jPts s.AUDIO_CHANNELS :=
    wrap64_of_isInt64 _ (tdiv_isInt64 jPts s.AUDIO_CHANNELS hp hc)
  have hch : s.AUDIO_CHANNELS ≠ 0 := by omega
  unfold adjustPts
  by_cases hu : s.AUDIO_FIRST_PTS = AV_NOPTS_VALUE
  · simp [hv, hch, hu, hq]
  · simp [hv, hch, hu, hq]

/-- C3: for a channel count `AUDIO_CHANNELS >= 1` and an audio packet with raw
PTS `jPts` (an `int64_t`), lines 360-364 work with the C quotient
`jPts / AUDIO_CHANNELS` throughout: the audio anchor, when this packet sets it,
becomes that quotient, and the value handed to the rescale is the quotient
minus the anchor (as an `int64_t`, and exactly when the difference fits), which
on the inputs shown differs from `jPts - anchor` and from
`(jPts - anchor) / AUDIO_CHANNELS`.  The call never ends in a division by zero,
and the packet written for a registered audio stream carries the rescaled
value. -/
theorem audio_pts_uses_quotient (s : Session) (jData : Nat)
    (jIsVideo jSize jFlags jPts jIsInterleave ret : Int)
    (hv : jIsVideo ≠ JNI_TRUE) (hc : 1 ≤ s.AUDIO_CHANNELS) (hp : isInt64 jPts) :
    adjustPts s jIsVideo jPts =
      Adjusted.ok
        { s with AUDIO_FIRST_PTS := if s.AUDIO_FIRST_PTS = AV_NOPTS_VALUE
            then Int.tdiv jPts s.AUDIO_CHANNELS else s.AUDIO_FIRST_PTS }
        s.audioStreamIndex
        (wrap64 (Int.tdiv jPts s.AUDIO_CHANNELS -
          (if s.AUDIO_FIRST_PTS = AV_NOPTS_VALUE
            then Int.tdiv jPts s.AUDIO_CHANNELS else s.AUDIO_FIRST_PTS))) ∧
    (isInt64 (Int.tdiv jPts s.AUDIO_CHANNELS - s.AUDIO_FIRST_PTS) →
      s.AUDIO_FIRST_PTS ≠ AV_NOPTS_VALUE →
      adjustPts s jIsVideo jPts =
        Adjusted.ok s s.audioStreamIndex (Int.tdiv jPts s.AUDIO_CHANNELS - s.AUDIO_FIRST_PTS)) ∧
    (s.AUDIO_FIRST_PTS = AV_NOPTS_VALUE →
      adjustPts s jIsVideo jPts =
        Adjusted.ok { s with AUDIO_FIRST_PTS := Int.tdiv jPts s.AUDIO_CHANNELS }
          s.audioStreamIndex 0) ∧
    (s.audioStreamIndex ≠ -1 → s.AUDIO_FIRST_PTS = AV_NOPTS_VALUE →
      (writeAVPacketFromEncodedData s jData jIsVideo jSize jFlags jPts jIsInterleave ret).1.AUDIO_FIRST_PTS
        = Int.tdiv jPts s.AUDIO_CHANNELS) ∧
    (∀ (ctx : AVFormatContext) (st : AVStream), s.audioStreamIndex ≠ -1 →
      s.outputFormatContext = some ctx → ctx.stream s.audioStreamIndex = some st →
      ∃ s1 pkt,
        writeAVPacketFromEncodedData s jData jIsVideo jSize jFlags jPts jIsInterleave ret
          = (s1, WriteResult.written pkt ret) ∧
        pkt.pts = av_rescale_q (wrap64 (Int.tdiv jPts s.AUDIO_CHANNELS - s1.AUDIO_FIRST_PTS))
          AV_TIME_BASE_Q st.time_base) ∧
    (writeAVPacketFromEncodedData s jData jIsVideo jSize jFlags jPts jIsInterleave ret).2
      ≠ WriteResult.divisionByZero ∧
    (adjustPts { openedSession with AUDIO_CHANNELS := 2, AUDIO_FIRST_PTS := 1 } 0 5
        = Adjusted.ok { openedSession with AUDIO_CHANNELS := 2, AUDIO_FIRST_PTS := 1 } 1 1 ∧
      (1 : Int) ≠ 5 - 1 ∧ (1 : Int) ≠ Int.tdiv (5 - 1) 2) := by
  have hq : wrap64 (Int.tdiv jPts s.AUDIO_CHANNELS) = Int.tdiv jPts s.AUDIO_CHANNELS :=
    wrap64_of_isInt64 _ (tdiv_isInt64 jPts s.AUDIO_CHANNELS hp hc)
  have hch : s.AUDIO_CHANNELS ≠ 0 := by omega
  have hadj := adjustPts_audio s jIsVideo jPts hv hc hp
  refine ⟨hadj, ?_, ?_, ?_, ?_, ?_, ?_⟩
  · intro hfit hset
    rw [hadj]
    simp [hset, wrap64_of_isInt64 _ hfit]
  · intro hun
    rw [hadj]
    simp [hun, wrap64_zero]
  · intro hreg hun
    unfold writeAVPacketFromEncodedData
    rw [if_neg (by simp [hv, hreg]), hadj]
    cases hctx : s.outputFormatContext with
    | none => simp [hun, hctx]
    | some ctx =>
      cases hst : ctx.stream s.audioStreamIndex with
      | none => simp [hun, hctx, hst]
      | some st => simp [hun, hctx, hst]
  · intro ctx st hreg hctx hst
    rw [write_audio_written s jData jIsVideo jSize jFlags jPts jIsInterleave ret ctx st hv hreg hch
      hctx hst]
    refine ⟨_, _, rfl, ?_⟩
    simp only [hq]
  · unfold writeAVPacketFromEncodedData
    by_cases hi : (jIsVideo = JNI_TRUE ∧ s.videoStreamIndex = -1) ∨
        (jIsVideo ≠ JNI_TRUE ∧ s.audioStreamIndex = -1)
    · simp [hi]
    · rw [if_neg hi, hadj]
      cases hctx : s.outputFormatContext with
      | none => simp
      | some ctx =>
        by_cases hu : s.AUDIO_FIRST_PTS = AV_NOPTS_VALUE
        · cases hst : ctx.stream s.audioStreamIndex with
          | none => simp [hu, hst]
          | some st => simp [hu, hst]
        · cases hst : ctx.stream s.audioStreamIndex with
          | none => simp [hu, hst]
          | some st => simp [hu, hst]
  · decide

/-- Witness for C3: two channels, anchor 1 and the raw PTS -7, whose C quotient
by 2 is -3. -/
theorem audio_pts_uses_quotient_witness :
    adjustPts { openedSession with AUDIO_CHANNELS := 2, AUDIO_FIRST_PTS := 1 } 0 (-7)
      = Adjusted.ok { openedSession with AUDIO_CHANNELS := 2, AUDIO_FIRST_PTS := 1 } 1 (-4) :=
  ((audio_pts_uses_quotient { openedSession with AUDIO_CHANNELS := 2, AUDIO_FIRST_PTS := 1 }
    7 0 100 0 (-7) 1 0 (by decide) (by decide) (by decide)).2.1 (by decide) (by decide)).trans
    (by decide)

/-! ## One forwarded packet -/

theorem write_video_step (s : Session) (c : WriteCall) (st : AVStream)
    (hv : c.jIsVideo = JNI_TRUE) (hreg : s.videoStreamIndex ≠ -1)
    (hnd : ¬ (s.VIDEO_FIRST_PTS = AV_NOPTS_VALUE ∧ c.jPts = 0))
    (hs : hasStream s s.videoStreamIndex st) :
    ∃ s1 pkt, writeCall s c = (s1, WriteResult.written pkt c.ret) ∧
      s1.videoStreamIndex = s.videoStreamIndex ∧ s1.audioStreamIndex = s.audioStreamIndex ∧
      s1.AUDIO_CHANNELS = s.AUDIO_CHANNELS ∧
      s1.VIDEO_FIRST_PTS
        = (if s.VIDEO_FIRST_PTS = AV_NOPTS_VALUE then c.jPts else s.VIDEO_FIRST_PTS) ∧
      s1.AUDIO_FIRST_PTS = s.AUDIO_FIRST_PTS ∧
      (∀ i t, hasStream s i t → hasStream s1 i t) ∧
      forwarded s1 = forwarded s ++ [pkt] ∧
      pkt.stream_index = s.videoStreamIndex ∧
      pkt.pts = av_rescale_q (wrap64 (c.jPts - s1.VIDEO_FIRST_PTS)) AV_TIME_BASE_Q st.time_base := by
  obtain ⟨ctx, hctx, hst⟩ := hs
  refine ⟨_, _, write_video_written s c.jData c.jIsVideo c.jSize c.jFlags c.jPts
    c.jIsInterleave c.ret ctx st hv hreg hnd hctx hst, rfl, rfl, rfl, rfl, rfl, ?_, ?_, rfl, rfl⟩
  · rintro i t ⟨ctx2, h2, h3⟩
    rw [hctx] at h2
    cases h2
    exact ⟨_, rfl, h3⟩
  · simp [forwarded, hctx]

theorem write_audio_step (s : Session) (c : WriteCall) (st : AVStream)
    (hv : c.jIsVideo ≠ JNI_TRUE) (hreg : s.audioStreamIndex ≠ -1) (hch : s.AUDIO_CHANNELS ≠ 0)
    (hs : hasStream s s.audioStreamIndex st) :
    ∃ s1 pkt, writeCall s c = (s1, WriteResult.written pkt c.ret) ∧
      s1.videoStreamIndex = s.videoStreamIndex ∧ s1.audioStreamIndex = s.audioStreamIndex ∧
      s1.AUDIO_CHANNELS = s.AUDIO_CHANNELS ∧
      s1.VIDEO_FIRST_PTS = s.VIDEO_FIRST_PTS ∧
      s1.AUDIO_FIRST_PTS
        = (if s.AUDIO_FIRST_PTS = AV_NOPTS_VALUE then wrap64 (Int.tdiv c.jPts s.AUDIO_CHANNELS)
            else s.AUDIO_FIRST_PTS) ∧
      (∀ i t, hasStream s i t → hasStream s1 i t) ∧
      forwarded s1 = forwarded s ++ [pkt] ∧
      pkt.stream_index = s.audioStreamIndex ∧
      pkt.pts = av_rescale_q (wrap64 (wrap64 (Int.tdiv c.jPts s.AUDIO_CHANNELS) - s1.AUDIO_FIRST_PTS))
        AV_TIME_BASE_Q st.time_base := by
  obtain ⟨ctx, hctx, hst⟩ := hs
  refine ⟨_, _, write_audio_written s c.jData c.jIsVideo c.jSize c.jFlags c.jPts
    c.jIsInterleave c.ret ctx st hv hreg hch hctx hst, rfl, rfl, rfl, rfl, rfl, ?_, ?_, rfl, rfl⟩
  · rintro i t ⟨ctx2, h2, h3⟩
    rw [hctx] at h2
    cases h2
    exact ⟨_, rfl, h3⟩
  · simp [forwarded, hctx]

/-! ## Monotonicity -/

/-- C4: timestamp normalization is monotonic.  Take two moments `sA`, `sB` of a
session at which the anchor of the track has the same value, already set, and
the stream of the track has the same time base, of positive numerator and
denominator (for audio also the same `AUDIO_CHANNELS >= 1`).  For two raw PTS
values `pA < pB` of that track whose adjusted values fit in an `int64_t`, the
packets written for them satisfy `pktA.pts <= pktB.pts`, where each `pts` is the
adjusted value (`raw - anchor` for video, `raw / AUDIO_CHANNELS - anchor` for
audio) rescaled from microseconds to the stream time base, rounded to
nearest. -/
theorem normalized_pts_monotonic :
    (∀ (sA sB : Session) (stA stB : AVStream) (cA cB : WriteCall),
      cA.jIsVideo = JNI_TRUE → cB.jIsVideo = JNI_TRUE →
      sA.videoStreamIndex ≠ -1 → sB.videoStreamIndex ≠ -1 →
      sA.VIDEO_FIRST_PTS ≠ AV_NOPTS_VALUE → sB.VIDEO_FIRST_PTS = sA.VIDEO_FIRST_PTS →
      hasStream sA sA.videoStreamIndex stA → hasStream sB sB.videoStreamIndex stB →
      stB.time_base = stA.time_base →
      0 < stA.time_base.num → 0 < stA.time_base.den →
      cA.jPts < cB.jPts →
      isInt64 (cA.jPts - sA.VIDEO_FIRST_PTS) → isInt64 (cB.jPts - sA.VIDEO_FIRST_PTS) →
      ∃ sA1 sB1 pktA pktB,
        writeCall sA cA = (sA1, WriteResult.written pktA cA.ret) ∧
        writeCall sB cB = (sB1, WriteResult.written pktB cB.ret) ∧
        pktA.pts = av_rescale_q (cA.jPts - sA.VIDEO_FIRST_PTS) AV_TIME_BASE_Q stA.time_base ∧
        pktB.pts = av_rescale_q (cB.jPts - sA.VIDEO_FIRST_PTS) AV_TIME_BASE_Q stA.time_base ∧
        pktA.pts ≤ pktB.pts) ∧
    (∀ (sA sB : Session) (stA stB : AVStream) (cA cB : WriteCall),
      cA.jIsVideo ≠ JNI_TRUE → cB.jIsVideo ≠ JNI_TRUE →
      sA.audioStreamIndex ≠ -1 → sB.audioStreamIndex ≠ -1 →
      sA.AUDIO_FIRST_PTS ≠ AV_NOPTS_VALUE → sB.AUDIO_FIRST_PTS = sA.AUDIO_FIRST_PTS →
      1 ≤ sA.AUDIO_CHANNELS → sB.AUDIO_CHANNELS = sA.AUDIO_CHANNELS →
      hasStream sA sA.audioStreamIndex stA → hasStream sB sB.audioStreamIndex stB →
      stB.time_base = stA.time_base →
      0 < stA.time_base.num → 0 < stA.time_base.den →
      cA.jPts < cB.jPts → isInt64 cA.jPts → isInt64 cB.jPts →
      isInt64 (Int.tdiv cA.jPts sA.AUDIO_CHANNELS - sA.AUDIO_FIRST_PTS) →
      isInt64 (Int.tdiv cB.jPts sA.AUDIO_CHANNELS - sA.AUDIO_FIRST_PTS) →
      ∃ sA1 sB1 pktA pktB,
        writeCall sA cA = (sA1, WriteResult.written pktA cA.ret) ∧
        writeCall sB cB = (sB1, WriteResult.written pktB cB.ret) ∧
        pktA.pts = av_rescale_q (Int.tdiv cA.jPts sA.AUDIO_CHANNELS - sA.AUDIO_FIRST_PTS)
          AV_TIME_BASE_Q stA.time_base ∧
        pktB.pts = av_rescale_q (Int.tdiv cB.jPts sA.AUDIO_CHANNELS - sA.AUDIO_FIRST_PTS)
          AV_TIME_BASE_Q stA.time_base ∧
        pktA.pts ≤ pktB.pts) := by
  constructor
  · intro sA sB stA stB cA cB hvA hvB hregA hregB hset hsame hsA hsB htb hn hd hlt hfA hfB
    have hsetB : sB.VIDEO_FIRST_PTS ≠ AV_NOPTS_VALUE := by rw [hsame]; exact hset
    obtain ⟨sA1, pktA, eA, _, _, _, aA, _, _, _, _, pA⟩ :=
      write_video_step sA cA stA hvA hregA (fun h => hset h.1) hsA
    obtain ⟨sB1, pktB, eB, _, _, _, aB, _, _, _, _, pB⟩ :=
      write_video_step sB cB stB hvB hregB (fun h => hsetB h.1) hsB
    rw [if_neg hset] at aA
    rw [if_neg hsetB, hsame] at aB
    rw [aA, wrap64_of_isInt64 _ hfA] at pA
    rw [aB, wrap64_of_isInt64 _ hfB, htb] at pB
    refine ⟨sA1, sB1, pktA, pktB, eA, eB, pA, pB, ?_⟩
    rw [pA, pB]
    exact av_rescale_q_mono _ _ stA.time_base hn hd (by omega)
  · intro sA sB stA stB cA cB hvA hvB hregA hregB hset hsame hch hchB hsA hsB htb hn hd hlt
      hpA hpB hfA hfB
    have hsetB : sB.AUDIO_FIRST_PTS ≠ AV_NOPTS_VALUE := by rw [hsame]; exact hset
    have hch0 : sA.AUDIO_CHANNELS ≠ 0 := by omega
    have hqA := wrap64_of_isInt64 _ (tdiv_isInt64 cA.jPts sA.AUDIO_CHANNELS hpA hch)
    have hqB := wrap64_of_isInt64 _ (tdiv_isInt64 cB.jPts sA.AUDIO_CHANNELS hpB hch)
    obtain ⟨sA1, pktA, eA, _, _, _, _, aA, _, _, _, pA⟩ :=
      write_audio_step sA cA stA hvA hregA hch0 hsA
    obtain ⟨sB1, pktB, eB, _, _, _, _, aB, _, _, _, pB⟩ :=
      write_audio_step sB cB stB hvB hregB (by rw [hchB]; exact hch0) hsB
    rw [if_neg hset] at aA
    rw [if_neg hsetB, hsame] at aB
    rw [aA, hqA, wrap64_of_isInt64 _ hfA] at pA
    rw [aB, hchB, hqB, wrap64_of_isInt64 _ hfB, htb] at pB
    refine ⟨sA1, sB1, pktA, pktB, eA, eB, pA, pB, ?_⟩
    rw [pA, pB]
    have := tdiv_mono cA.jPts cB.jPts sA.AUDIO_CHANNELS (by omega) (le_of_lt hlt)
    exact av_rescale_q_mono _ _ stA.time_base hn hd (by omega)

/-- Witness for C4: in the session whose video anchor is 3000, the video packets
with raw PTS 4000 and 9500 are written with the millisecond timestamps of the
adjusted values 1000 and 6500, the second one after the first. -/
theorem normalized_pts_monotonic_witness :
    ∃ sA1 sB1 pktA pktB,
      writeCall anchoredSession ⟨9, 1, 100, 0, 4000, 1, 0⟩
        = (sA1, WriteResult.written pktA 0) ∧
      writeCall (writeCall anchoredSession ⟨9, 1, 100, 0, 4000, 1, 0⟩).1
          ⟨10, 1, 100, 0, 9500, 1, 0⟩
        = (sB1, WriteResult.written pktB 0) ∧
      pktA.pts = av_rescale_q (4000 - 3000) AV_TIME_BASE_Q ⟨1, 1000⟩ ∧
      pktB.pts = av_rescale_q (9500 - 3000) AV_TIME_BASE_Q ⟨1, 1000⟩ ∧
      pktA.pts ≤ pktB.pts :=
  normalized_pts_monotonic.1 anchoredSession
    (writeCall anchoredSession ⟨9, 1, 100, 0, 4000, 1, 0⟩).1
    openedVideoStream openedVideoStream
    ⟨9, 1, 100, 0, 4000, 1, 0⟩ ⟨10, 1, 100, 0, 9500, 1, 0⟩ rfl rfl (by decide) (by decide)
    (by decide) (by decide) ⟨_, rfl, by decide⟩ ⟨_, rfl, by decide⟩ rfl
    (by decide) (by decide) (by decide) (by decide) (by decide)

/-! ## The first packet of a track -/

theorem firstOf_append_of_some (i : Int) (l l2 : List AVPacket) (p : AVPacket)
    (h : firstOf i l = some p) : firstOf i (l ++ l2) = some p := by
  unfold firstOf at *
  rw [List.find?_append, h]
  rfl

theorem firstOf_append_single_of_none (i : Int) (l : List AVPacket) (p : AVPacket)
    (h : firstOf i l = none) :
    firstOf i (l ++ [p]) = if p.stream_index = i then some p else none := by
  unfold firstOf at *
  rw [List.find?_append, h]
  by_cases hp : p.stream_index = i <;> simp [List.find?, hp]

theorem write_ready_step (s : Session) (c : WriteCall) (hr : Ready s) :
    ∃ s1 r, writeCall s c = (s1, r) ∧
      r ≠ WriteResult.divisionByZero ∧ r ≠ WriteResult.badStream ∧ Ready s1 ∧
      s1.videoStreamIndex = s.videoStreamIndex ∧ s1.audioStreamIndex = s.audioStreamIndex ∧
      ((forwarded s1 = forwarded s ∧ s1.VIDEO_FIRST_PTS = s.VIDEO_FIRST_PTS ∧
          s1.AUDIO_FIRST_PTS = s.AUDIO_FIRST_PTS ∧
          (c.jIsVideo ≠ JNI_TRUE → s.audioStreamIndex = -1) ∧
          (c.jIsVideo = JNI_TRUE →
            s.videoStreamIndex = -1 ∨ (s.VIDEO_FIRST_PTS = AV_NOPTS_VALUE ∧ c.jPts = 0))) ∨
        ∃ pkt, forwarded s1 = forwarded s ++ [pkt] ∧ pkt.data = c.jData ∧ pkt.size = c.jSize ∧
          ((c.jIsVideo = JNI_TRUE ∧ pkt.stream_index = s.videoStreamIndex ∧
              s.videoStreamIndex ≠ -1 ∧ s1.AUDIO_FIRST_PTS = s.AUDIO_FIRST_PTS ∧
              (s.VIDEO_FIRST_PTS = AV_NOPTS_VALUE → pkt.pts = 0) ∧
              ¬ (s.VIDEO_FIRST_PTS = AV_NOPTS_VALUE ∧ c.jPts = 0)) ∨
            (c.jIsVideo ≠ JNI_TRUE ∧ pkt.stream_index = s.audioStreamIndex ∧
              s.audioStreamIndex ≠ -1 ∧ s1.VIDEO_FIRST_PTS = s.VIDEO_FIRST_PTS ∧
              (s.AUDIO_FIRST_PTS = AV_NOPTS_VALUE → pkt.pts = 0)))) := by
  obtain ⟨hne, hch, hvs, has⟩ := hr
  by_cases hi : (c.jIsVideo = JNI_TRUE ∧ s.videoStreamIndex = -1) ∨
      (c.jIsVideo ≠ JNI_TRUE ∧ s.audioStreamIndex = -1)
  · refine ⟨s, WriteResult.ignored, write_ignored s c.jData c.jIsVideo c.jSize c.jFlags c.jPts
      c.jIsInterleave c.ret hi, by simp, by simp, ⟨hne, hch, hvs, has⟩, rfl, rfl, Or.inl ⟨rfl, rfl, rfl, ?_, ?_⟩⟩
    · intro hv
      rcases hi with h | h
      · exact absurd h.1 hv
      · exact h.2
    · intro hv
      rcases hi with h | h
      · exact Or.inl h.2
      · exact absurd hv h.1
  · by_cases hv : c.jIsVideo = JNI_TRUE
    · have hreg : s.videoStreamIndex ≠ -1 := fun h => hi (Or.inl ⟨hv, h⟩)
      by_cases hnd : s.VIDEO_FIRST_PTS = AV_NOPTS_VALUE ∧ c.jPts = 0
      · exact ⟨s, WriteResult.dropped, write_video_dropped s c.jData c.jIsVideo c.jSize c.jFlags
          c.jPts c.jIsInterleave c.ret hv hreg hnd.1 hnd.2, by simp, by simp, ⟨hne, hch, hvs, has⟩,
          rfl, rfl, Or.inl ⟨rfl, rfl, rfl, fun h => absurd hv h, fun _ => Or.inr hnd⟩⟩
      · obtain ⟨st, hst, hn, hd⟩ := hvs hreg
        obtain ⟨s1, pkt, e, i1, i2, ch1, a1, a2, hs1, f1, px, pp⟩ :=
          write_video_step s c st hv hreg hnd hst
        refine ⟨s1, _, e, by simp, by simp, ⟨by rw [i1, i2]; exact hne, by rw [ch1]; exact hch, ?_, ?_⟩,
          i1, i2, Or.inr ⟨pkt, f1, ?_, ?_, Or.inl ⟨hv, px, hreg, a2, ?_, hnd⟩⟩⟩
        · intro h
          rw [i1] at h ⊢
          obtain ⟨t, ht, hn2, hd2⟩ := hvs h
          exact ⟨t, hs1 _ _ ht, hn2, hd2⟩
        · intro h
          rw [i2] at h ⊢
          obtain ⟨t, ht, hn2, hd2⟩ := has h
          exact ⟨t, hs1 _ _ ht, hn2, hd2⟩
        · have := write_written_flags s c.jData c.jIsVideo c.jSize c.jFlags c.jPts c.jIsInterleave
            c.ret pkt c.ret (by have := congrArg Prod.snd e; exact this)
          exact this.2.1
        · have := write_written_flags s c.jData c.jIsVideo c.jSize c.jFlags c.jPts c.jIsInterleave
            c.ret pkt c.ret (by have := congrArg Prod.snd e; exact this)
          exact this.2.2.1
        · intro hun
          rw [pp, a1, if_pos hun, wrap64_sub_self]
          exact av_rescale_q_zero st.time_base hn hd
    · have hreg : s.audioStreamIndex ≠ -1 := fun h => hi (Or.inr ⟨hv, h⟩)
      have hch0 : s.AUDIO_CHANNELS ≠ 0 := by omega
      obtain ⟨st, hst, hn, hd⟩ := has hreg
      obtain ⟨s1, pkt, e, i1, i2, ch1, a1, a2, hs1, f1, px, pp⟩ :=
        write_audio_step s c st hv hreg hch0 hst
      refine ⟨s1, _, e, by simp, by simp, ⟨by rw [i1, i2]; exact hne, by rw [ch1]; exact hch, ?_, ?_⟩,
        i1, i2, Or.inr ⟨pkt, f1, ?_, ?_, Or.inr ⟨hv, px, hreg, a1, ?_⟩⟩⟩
      · intro h
        rw [i1] at h ⊢
        obtain ⟨t, ht, hn2, hd2⟩ := hvs h
        exact ⟨t, hs1 _ _ ht, hn2, hd2⟩
      · intro h
        rw [i2] at h ⊢
        obtain ⟨t, ht, hn2, hd2⟩ := has h
        exact ⟨t, hs1 _ _ ht, hn2, hd2⟩
      · have := write_written_flags s c.jData c.jIsVideo c.jSize c.jFlags c.jPts c.jIsInterleave
          c.ret pkt c.ret (by have := congrArg Prod.snd e; exact this)
        exact this.2.1
      · have := write_written_flags s c.jData c.jIsVideo c.jSize c.jFlags c.jPts c.jIsInterleave
          c.ret pkt c.ret (by have := congrArg Prod.snd e; exact this)
        exact this.2.2.1
      · intro hun
        rw [pp, a2, if_pos hun, wrap64_sub_self]
        exact av_rescale_q_zero st.time_base hn hd

theorem writeAll_ready_cons (s : Session) (c : WriteCall) (cs : List WriteCall) (hr : Ready s) :
    writeAll s (c :: cs) = writeAll (writeCall s c).1 cs := by
  obtain ⟨s1, r, e, h1, h2, _⟩ := write_ready_step s c hr
  rw [writeAll_cons, e]
  simp [h1, h2]

theorem writeAll_ready (cs : List WriteCall) : ∀ s : Session, Ready s →
    Ready (writeAll s cs) ∧ (writeAll s cs).videoStreamIndex = s.videoStreamIndex ∧
      (writeAll s cs).audioStreamIndex = s.audioStreamIndex := by
  induction cs with
  | nil => intro s hr; exact ⟨hr, rfl, rfl⟩
  | cons c cs ih =>
    intro s hr
    rw [writeAll_ready_cons s c cs hr]
    obtain ⟨s1, r, e, _, _, hr1, i1, i2, _⟩ := write_ready_step s c hr
    rw [e]
    obtain ⟨h1, h2, h3⟩ := ih s1 hr1
    exact ⟨h1, by rw [h2, i1], by rw [h3, i2]⟩

theorem writeAll_append (xs ys : List WriteCall) : ∀ s : Session, Ready s →
    writeAll s (xs ++ ys) = writeAll (writeAll s xs) ys := by
  induction xs with
  | nil => intro s _; rfl
  | cons c xs ih =>
    intro s hr
    obtain ⟨s1, r, e, _, _, hr1, _⟩ := write_ready_step s c hr
    rw [List.cons_append, writeAll_ready_cons s c _ hr, writeAll_ready_cons s c _ hr, e]
    exact ih s1 hr1

theorem firstOf_writeAll_of_some (i : Int) (p : AVPacket) (cs : List WriteCall) :
    ∀ s : Session, Ready s → firstOf i (forwarded s) = some p →
      firstOf i (forwarded (writeAll s cs)) = some p := by
  induction cs with
  | nil => intro s _ h; exact h
  | cons c cs ih =>
    intro s hr h
    rw [writeAll_ready_cons s c cs hr]
    obtain ⟨s1, r, e, _, _, hr1, _, _, hcase⟩ := write_ready_step s c hr
    rw [e]
    apply ih s1 hr1
    rcases hcase with ⟨f, _⟩ | ⟨pkt, f, _⟩
    · rw [f]; exact h
    · rw [f]; exact firstOf_append_of_some i _ _ p h

theorem video_first_invariant (cs : List WriteCall) : ∀ s : Session, Ready s →
    ((s.VIDEO_FIRST_PTS = AV_NOPTS_VALUE ∧ firstOf s.videoStreamIndex (forwarded s) = none) ∨
      ∃ p, firstOf s.videoStreamIndex (forwarded s) = some p ∧ p.pts = 0) →
    ∀ pkt, firstOf s.videoStreamIndex (forwarded (writeAll s cs)) = some pkt → pkt.pts = 0 := by
  induction cs with
  | nil =>
    intro s _ hg pkt h
    rcases hg with ⟨_, hn⟩ | ⟨p, hp, h0⟩
    · rw [show writeAll s [] = s from rfl, hn] at h
      exact absurd h (by simp)
    · rw [show writeAll s [] = s from rfl, hp] at h
      cases h
      exact h0
  | cons c cs ih =>
    intro s hr hg pkt h
    rw [writeAll_ready_cons s c cs hr] at h
    obtain ⟨s1, r, e, _, _, hr1, i1, i2, hcase⟩ := write_ready_step s c hr
    rw [e] at h
    rw [← i1] at h
    refine ih s1 hr1 ?_ pkt h
    rw [i1]
    rcases hg with ⟨hun, hn⟩ | ⟨p, hp, h0⟩
    · rcases hcase with ⟨f, a, _⟩ | ⟨q, f, _, _, hq⟩
      · left; rw [f, a]; exact ⟨hun, hn⟩
      · rcases hq with ⟨_, hx, _, _, hz, _⟩ | ⟨_, hx, _, a, _⟩
        · right
          refine ⟨q, ?_, hz hun⟩
          rw [f, firstOf_append_single_of_none _ _ _ hn, if_pos hx]
        · left
          refine ⟨by rw [a]; exact hun, ?_⟩
          rw [f, firstOf_append_single_of_none _ _ _ hn, if_neg]
          rw [hx]
          exact fun h => hr.1 h.symm
    · right
      refine ⟨p, ?_, h0⟩
      rcases hcase with ⟨f, _⟩ | ⟨q, f, _⟩
      · rw [f]; exact hp
      · rw [f]; exact firstOf_append_of_some _ _ _ p hp

theorem audio_first_invariant (cs : List WriteCall) : ∀ s : Session, Ready s →
    ((s.AUDIO_FIRST_PTS = AV_NOPTS_VALUE ∧ firstOf s.audioStreamIndex (forwarded s) = none) ∨
      ∃ p, firstOf s.audioStreamIndex (forwarded s) = some p ∧ p.pts = 0) →
    ∀ pkt, firstOf s.audioStreamIndex (forwarded (writeAll s cs)) = some pkt → pkt.pts = 0 := by
  induction cs with
  | nil =>
    intro s _ hg pkt h
    rcases hg with ⟨_, hn⟩ | ⟨p, hp, h0⟩
    · rw [show writeAll s [] = s from rfl, hn] at h
      exact absurd h (by simp)
    · rw [show writeAll s [] = s from rfl, hp] at h
      cases h
      exact h0
  | cons c cs ih =>
    intro s hr hg pkt h
    rw [writeAll_ready_cons s c cs hr] at h
    obtain ⟨s1, r, e, _, _, hr1, i1, i2, hcase⟩ := write_ready_step s c hr
    rw [e] at h
    rw [← i2] at h
    refine ih s1 hr1 ?_ pkt h
    rw [i2]
    rcases hg with ⟨hun, hn⟩ | ⟨p, hp, h0⟩
    · rcases hcase with ⟨f, _, a, _⟩ | ⟨q, f, _, _, hq⟩
      · left; rw [f, a]; exact ⟨hun, hn⟩
      · rcases hq with ⟨_, hx, _, a, _⟩ | ⟨_, hx, _, _, hz⟩
        · left
          refine ⟨by rw [a]; exact hun, ?_⟩
          rw [f, firstOf_append_single_of_none _ _ _ hn, if_neg]
          rw [hx]
          exact hr.1
        · right
          refine ⟨q, ?_, hz hun⟩
          rw [f, firstOf_append_single_of_none _ _ _ hn, if_pos hx]
    · right
      refine ⟨p, ?_, h0⟩
      rcases hcase with ⟨f, _⟩ | ⟨q, f, _⟩
      · rw [f]; exact hp
      · rw [f]; exact firstOf_append_of_some _ _ _ p hp

theorem audio_unanchored_after_video_calls (pre : List WriteCall) : ∀ s : Session, Ready s →
    s.AUDIO_FIRST_PTS = AV_NOPTS_VALUE → firstOf s.audioStreamIndex (forwarded s) = none →
    (∀ x ∈ pre, x.jIsVideo = JNI_TRUE) →
    (writeAll s pre).AUDIO_FIRST_PTS = AV_NOPTS_VALUE ∧
      firstOf s.audioStreamIndex (forwarded (writeAll s pre)) = none := by
  induction pre with
  | nil => intro s _ hun hn _; exact ⟨hun, hn⟩
  | cons c cs ih =>
    intro s hr hun hn hall
    have hv : c.jIsVideo = JNI_TRUE := hall c (List.mem_cons_self _ _)
    rw [writeAll_ready_cons s c cs hr]
    obtain ⟨s1, r, e, _, _, hr1, i1, i2, hcase⟩ := write_ready_step s c hr
    rw [e]
    rw [← i2]
    apply ih s1 hr1
    · rcases hcase with ⟨_, _, a, _⟩ | ⟨q, _, _, _, hq⟩
      · rw [a]; exact hun
      · rcases hq with ⟨_, _, _, a, _⟩ | ⟨h, _⟩
        · rw [a]; exact hun
        · exact absurd hv h
    · rw [i2]
      rcases hcase with ⟨f, _⟩ | ⟨q, f, _, _, hq⟩
      · rw [f]; exact hn
      · rcases hq with ⟨_, hx, _, _, _⟩ | ⟨h, _⟩
        · rw [f, firstOf_append_single_of_none _ _ _ hn, if_neg]
          rw [hx]
          exact hr.1
        · exact absurd hv h
    · exact fun x hx => hall x (List.mem_cons_of_mem _ hx)

theorem video_unanchored_after_other_calls (pre : List WriteCall) : ∀ s : Session, Ready s →
    s.VIDEO_FIRST_PTS = AV_NOPTS_VALUE → firstOf s.videoStreamIndex (forwarded s) = none →
    (∀ x ∈ pre, x.jIsVideo = JNI_TRUE → x.jPts = 0) →
    (writeAll s pre).VIDEO_FIRST_PTS = AV_NOPTS_VALUE ∧
      firstOf s.videoStreamIndex (forwarded (writeAll s pre)) = none := by
  induction pre with
  | nil => intro s _ hun hn _; exact ⟨hun, hn⟩
  | cons c cs ih =>
    intro s hr hun hn hall
    have hz : c.jIsVideo = JNI_TRUE → c.jPts = 0 := hall c (List.mem_cons_self _ _)
    rw [writeAll_ready_cons s c cs hr]
    obtain ⟨s1, r, e, _, _, hr1, i1, i2, hcase⟩ := write_ready_step s c hr
    rw [e]
    rw [← i1]
    apply ih s1 hr1
    · rcases hcase with ⟨_, a, _⟩ | ⟨q, _, _, _, hq⟩
      · rw [a]; exact hun
      · rcases hq with ⟨hv, _, _, _, _, hnd⟩ | ⟨_, _, _, a, _⟩
        · exact absurd ⟨hun, hz hv⟩ hnd
        · rw [a]; exact hun
    · rw [i1]
      rcases hcase with ⟨f, _⟩ | ⟨q, f, _, _, hq⟩
      · rw [f]; exact hn
      · rcases hq with ⟨hv, _, _, _, _, hnd⟩ | ⟨_, hx, _, _, _⟩
        · exact absurd ⟨hun, hz hv⟩ hnd
        · rw [f, firstOf_append_single_of_none _ _ _ hn, if_neg]
          rw [hx]
          exact fun h => hr.1 h.symm
    · exact fun x hx => hall x (List.mem_cons_of_mem _ hx)

/-- C1: in a session just opened (nothing handed to the container writer yet,
both anchors `AV_NOPTS_VALUE`, `AUDIO_CHANNELS >= 1`, every registered track with
its stream and a time base of positive numerator and denominator), after any
sequence of `writeAVPacketFromEncodedData` calls the first packet the writer
received for the audio stream and the first it received for the video stream
both carry `pts = 0`.  For audio that packet comes from the first audio call,
whatever its raw PTS; for video from the first video call with a non-zero raw
PTS.  The rescale of the adjusted value 0 to a time base with positive
numerator and denominator is 0. -/
theorem first_forwarded_pts_is_zero (s : Session) (cs : List WriteCall)
    (hr : Ready s) (hv : s.VIDEO_FIRST_PTS = AV_NOPTS_VALUE)
    (ha : s.AUDIO_FIRST_PTS = AV_NOPTS_VALUE) (hf : forwarded s = []) :
    (∀ pkt, firstOf s.audioStreamIndex (forwarded (writeAll s cs)) = some pkt → pkt.pts = 0) ∧
    (∀ pkt, firstOf s.videoStreamIndex (forwarded (writeAll s cs)) = some pkt → pkt.pts = 0) ∧
    (∀ pre c post, cs = pre ++ c :: post → s.audioStreamIndex ≠ -1 →
      (∀ x ∈ pre, x.jIsVideo = JNI_TRUE) → c.jIsVideo ≠ JNI_TRUE →
      ∃ pkt, firstOf s.audioStreamIndex (forwarded (writeAll s cs)) = some pkt ∧
        pkt.data = c.jData ∧ pkt.size = c.jSize ∧ pkt.pts = 0) ∧
    (∀ pre c post, cs = pre ++ c :: post → s.videoStreamIndex ≠ -1 →
      (∀ x ∈ pre, x.jIsVideo = JNI_TRUE → x.jPts = 0) → c.jIsVideo = JNI_TRUE → c.jPts ≠ 0 →
      ∃ pkt, firstOf s.videoStreamIndex (forwarded (writeAll s cs)) = some pkt ∧
        pkt.data = c.jData ∧ pkt.size = c.jSize ∧ pkt.pts = 0) ∧
    (∀ tb : AVRational, 0 < tb.num → 0 < tb.den → av_rescale_q 0 AV_TIME_BASE_Q tb = 0) := by
  have hna : firstOf s.audioStreamIndex (forwarded s) = none := by rw [hf]; rfl
  have hnv : firstOf s.videoStreamIndex (forwarded s) = none := by rw [hf]; rfl
  refine ⟨audio_first_invariant cs s hr (Or.inl ⟨ha, hna⟩),
    video_first_invariant cs s hr (Or.inl ⟨hv, hnv⟩), ?_, ?_, av_rescale_q_zero⟩
  · intro pre c post hcs hreg hpre hc
    obtain ⟨hr1, i1, i2⟩ := writeAll_ready pre s hr
    obtain ⟨hun1, hn1⟩ := audio_unanchored_after_video_calls pre s hr ha hna hpre
    rw [hcs, writeAll_append pre (c :: post) s hr, writeAll_ready_cons _ c post hr1]
    obtain ⟨s2, r, e, _, _, hr2, _, _, hcase⟩ := write_ready_step (writeAll s pre) c hr1
    rw [e]
    rcases hcase with ⟨_, _, _, h, _⟩ | ⟨pkt, f, hd, hz, hq⟩
    · exact absurd (h hc) (by rw [i2]; exact hreg)
    · rcases hq with ⟨h, _⟩ | ⟨_, hx, _, _, h0⟩
      · exact absurd h hc
      · refine ⟨pkt, ?_, hd, hz, h0 hun1⟩
        apply firstOf_writeAll_of_some _ _ post s2 hr2
        rw [f, firstOf_append_single_of_none _ _ _ hn1, if_pos (by rw [hx, i2])]
  · intro pre c post hcs hreg hpre hc hp
    obtain ⟨hr1, i1, i2⟩ := writeAll_ready pre s hr
    obtain ⟨hun1, hn1⟩ := video_unanchored_after_other_calls pre s hr hv hnv hpre
    rw [hcs, writeAll_append pre (c :: post) s hr, writeAll_ready_cons _ c post hr1]
    obtain ⟨s2, r, e, _, _, hr2, _, _, hcase⟩ := write_ready_step (writeAll s pre) c hr1
    rw [e]
    rcases hcase with ⟨_, _, _, _, h⟩ | ⟨pkt, f, hd, hz, hq⟩
    · rcases h hc with h | h
      · exact absurd h (by rw [i1]; exact hreg)
      · exact absurd h.2 hp
    · rcases hq with ⟨_, hx, _, _, h0, _⟩ | ⟨h, _⟩
      · refine ⟨pkt, ?_, hd, hz, h0 hun1⟩
        apply firstOf_writeAll_of_some _ _ post s2 hr2
        rw [f, firstOf_append_single_of_none _ _ _ hn1, if_pos (by rw [hx, i1])]
      · exact absurd hc h

theorem openedSession_ready : Ready openedSession :=
  ⟨by decide, by decide,
    fun _ => ⟨openedVideoStream, ⟨_, rfl, by decide⟩, by decide, by decide⟩,
    fun _ => ⟨openedAudioStream, ⟨_, rfl, by decide⟩, by decide, by decide⟩⟩

/-- Witness for C1: the opened session receives a video packet with PTS 0
(dropped), video packets with PTS 3000 and 6000 and audio packets with PTS 500
and 2548; the first packet of the audio stream is the one of the call with PTS
500 and has `pts = 0`. -/
theorem first_forwarded_pts_is_zero_witness :
    firstOf 1 (forwarded (writeAll openedSession
        [⟨1, 1, 10, 1, 0, 1, 0⟩, ⟨2, 1, 10, 1, 3000, 1, 0⟩, ⟨3, 0, 10, 0, 500, 1, 0⟩,
         ⟨4, 1, 10, 0, 6000, 1, 0⟩, ⟨5, 0, 10, 0, 2548, 1, 0⟩]))
      = some ⟨1, 0, AV_NOPTS_VALUE, 3, 10, 0⟩ ∧
    (⟨1, 0, AV_NOPTS_VALUE, 3, 10, 0⟩ : AVPacket).pts = 0 :=
  ⟨by decide, (first_forwarded_pts_is_zero openedSession
      [⟨1, 1, 10, 1, 0, 1, 0⟩, ⟨2, 1, 10, 1, 3000, 1, 0⟩, ⟨3, 0, 10, 0, 500, 1, 0⟩,
       ⟨4, 1, 10, 0, 6000, 1, 0⟩, ⟨5, 0, 10, 0, 2548, 1, 0⟩]
      openedSession_ready (by decide) (by decide) (by decide)).1
      ⟨1, 0, AV_NOPTS_VALUE, 3, 10, 0⟩ (by decide)⟩

/-! ## Failure of opening -/

theorem prepare_failure_flag (s : Session) (path : String) (vd : List Nat) (vs : Int)
    (ad : List Nat) (as d : Int) (lib : PrepareAnswers)
    (h : lib.allocResult < 0 ∨ (vs > 0 ∧ lib.videoStream = none) ∨
      (as > 0 ∧ lib.audioStream = none) ∨ (lib.nofile = false ∧ lib.avioOpenResult < 0)) :
    (prepareAVFormatContext s path vd vs ad as d lib).2 < 0 ∧
    (prepareAVFormatContext s path vd vs ad as d lib).1.IS_RUNNING = 0 := by
  rcases lib with ⟨ar, vst, ast, nf, ao, wh⟩
  simp only at h
  by_cases h1 : ar < 0
  · simp [prepareAVFormatContext, ffmpeg_init, h1]
  · by_cases h2 : vs > 0 <;> by_cases h3 : as > 0 <;> cases vst <;> cases ast <;>
      cases nf <;> by_cases h4 : ao < 0 <;>
      simp [prepareAVFormatContext, prepareStreams, prepareOutput, addVideoStream, addAudioStream,
        openFileForWriting, writeFileHeader, ffmpeg_init, newContext, h1, h2, h3, h4] at h ⊢

theorem prepare_alloc_failure (s : Session) (path : String) (vd : List Nat) (vs : Int)
    (ad : List Nat) (as d : Int) (lib : PrepareAnswers) (h : lib.allocResult < 0) :
    prepareAVFormatContext s path vd vs ad as d lib
      = ({ s with IS_RUNNING := 0, outputPath := path, outputFormatContext := none },
          lib.allocResult) := by
  simp [prepareAVFormatContext, ffmpeg_init, h]

theorem prepare_keeps_context (s : Session) (path : String) (vd : List Nat) (vs : Int)
    (ad : List Nat) (as d : Int) (lib : PrepareAnswers) (h : 0 ≤ lib.allocResult) :
    (prepareAVFormatContext s path vd vs ad as d lib).1.outputFormatContext ≠ none ∧
    (vs > 0 → lib.videoStream ≠ none →
      (prepareAVFormatContext s path vd vs ad as d lib).1.videoStreamIndex = 0) ∧
    (¬ (vs > 0 ∧ lib.videoStream = none) → as > 0 → lib.audioStream ≠ none →
      (prepareAVFormatContext s path vd vs ad as d lib).1.audioStreamIndex
        = (if vs > 0 then 1 else 0)) ∧
    (¬ (vs > 0 ∧ lib.videoStream = none) → ¬ (as > 0 ∧ lib.audioStream = none) →
      ¬ (lib.nofile = false ∧ lib.avioOpenResult < 0) →
      (prepareAVFormatContext s path vd vs ad as d lib).2 = lib.writeHeaderResult) := by
  rcases lib with ⟨ar, vst, ast, nf, ao, wh⟩
  have h1 : ¬ ar < 0 := by simp only at h; omega
  by_cases h2 : vs > 0 <;> by_cases h3 : as > 0 <;> cases vst <;> cases ast <;>
    cases nf <;> by_cases h4 : ao < 0 <;>
    simp [prepareAVFormatContext, prepareStreams, prepareOutput, addVideoStream, addAudioStream,
      openFileForWriting, writeFileHeader, ffmpeg_init, newContext, h1, h2, h3, h4]

theorem prepare_then_finalize (s : Session) (path : String) (vd : List Nat) (vs : Int)
    (ad : List Nat) (as d : Int) (lib : PrepareAnswers) :
    finalizeAVFormatContext (prepareAVFormatContext s path vd vs ad as d lib).1 ≠ none := by
  rcases lib with ⟨ar, vst, ast, nf, ao, wh⟩
  by_cases h1 : ar < 0
  · simp [prepareAVFormatContext, ffmpeg_init, finalizeAVFormatContext, h1]
  · by_cases h2 : vs > 0 <;> by_cases h3 : as > 0 <;> cases vst <;> cases ast <;>
      cases nf <;> by_cases h4 : ao < 0 <;>
      simp [prepareAVFormatContext, prepareStreams, prepareOutput, addVideoStream, addAudioStream,
        openFileForWriting, writeFileHeader, ffmpeg_init, newContext, finalizeAVFormatContext,
        h1, h2, h3, h4]

/-- C8, counterexample: `prepareAVFormatContext` on the initial globals with both
extradata buffers, when the audio stream cannot be allocated, returns -1 and
leaves the video stream registered at index 0 with the output context attached;
the next video packet (PTS 3000) is handed to the container writer. -/
theorem prepare_failure_not_atomic :
    (prepareAVFormatContext initialSession "/sdcard/out.flv" [103, 66] 2 [18, 16] 2 0
      audioStreamFails).2 = -1 ∧
    halfOpenedSession.videoStreamIndex = 0 ∧
    halfOpenedSession.IS_RUNNING = 0 ∧
    halfOpenedSession.outputFormatContext ≠ none ∧
    (writeAVPacketFromEncodedData halfOpenedSession 7 1 100 1 3000 1 0).2
      = WriteResult.written ⟨0, 0, AV_NOPTS_VALUE, 7, 100, 1⟩ 0 ∧
    forwarded (writeAVPacketFromEncodedData halfOpenedSession 7 1 100 1 3000 1 0).1
      = [⟨0, 0, AV_NOPTS_VALUE, 7, 100, 1⟩] := by
  decide

/-- C8, amended: `prepareAVFormatContext` returns at the first failing step and
undoes nothing.  When allocating the output context fails, only `IS_RUNNING`
(cleared), `outputPath` and `outputFormatContext` (NULL) change, so the stream
indices keep their values.  When allocating the context, adding a stream or
opening the destination fails, the call returns a negative code with
`IS_RUNNING = 0`; when all of these succeed the call returns the code of
`avformat_write_header`.  Once the context is allocated it stays attached, and
a stream added before a later failure stays registered.  After any outcome,
`finalizeAVFormatContext` returns and leaves both stream indices at -1, both
anchors unset and `IS_RUNNING = 0`, so that every following packet is
ignored. -/
theorem prepare_failure_keeps_earlier_steps (s : Session) (path : String) (vd : List Nat)
    (vs : Int) (ad : List Nat) (as d : Int) (lib : PrepareAnswers) :
    (lib.allocResult < 0 →
      prepareAVFormatContext s path vd vs ad as d lib
        = ({ s with IS_RUNNING := 0, outputPath := path, outputFormatContext := none },
            lib.allocResult)) ∧
    (lib.allocResult < 0 ∨ (vs > 0 ∧ lib.videoStream = none) ∨
        (as > 0 ∧ lib.audioStream = none) ∨ (lib.nofile = false ∧ lib.avioOpenResult < 0) →
      (prepareAVFormatContext s path vd vs ad as d lib).2 < 0 ∧
      (prepareAVFormatContext s path vd vs ad as d lib).1.IS_RUNNING = 0) ∧
    (0 ≤ lib.allocResult →
      (prepareAVFormatContext s path vd vs ad as d lib).1.outputFormatContext ≠ none ∧
      (vs > 0 → lib.videoStream ≠ none →
        (prepareAVFormatContext s path vd vs ad as d lib).1.videoStreamIndex = 0) ∧
      (¬ (vs > 0 ∧ lib.videoStream = none) → as > 0 → lib.audioStream ≠ none →
        (prepareAVFormatContext s path vd vs ad as d lib).1.audioStreamIndex
          = (if vs > 0 then 1 else 0)) ∧
      (¬ (vs > 0 ∧ lib.videoStream = none) → ¬ (as > 0 ∧ lib.audioStream = none) →
        ¬ (lib.nofile = false ∧ lib.avioOpenResult < 0) →
        (prepareAVFormatContext s path vd vs ad as d lib).2 = lib.writeHeaderResult)) ∧
    (∃ s1, finalizeAVFormatContext (prepareAVFormatContext s path vd vs ad as d lib).1 = some s1 ∧
      s1.videoStreamIndex = -1 ∧ s1.audioStreamIndex = -1 ∧
      s1.VIDEO_FIRST_PTS = AV_NOPTS_VALUE ∧ s1.AUDIO_FIRST_PTS = AV_NOPTS_VALUE ∧
      s1.IS_RUNNING = 0 ∧ ∀ c : WriteCall, writeCall s1 c = (s1, WriteResult.ignored)) := by
  refine ⟨prepare_alloc_failure s path vd vs ad as d lib,
    prepare_failure_flag s path vd vs ad as d lib,
    prepare_keeps_context s path vd vs ad as d lib, ?_⟩
  cases hfin : finalizeAVFormatContext (prepareAVFormatContext s path vd vs ad as d lib).1 with
  | none => exact absurd hfin (prepare_then_finalize s path vd vs ad as d lib)
  | some s1 =>
    obtain ⟨h1, h2, h3, h4, h5⟩ := finalize_resets _ s1 hfin
    refine ⟨s1, rfl, h1, h2, h3, h4, h5, fun c => ?_⟩
    apply write_ignored
    by_cases hv : c.jIsVideo = JNI_TRUE
    · exact Or.inl ⟨hv, h1⟩
    · exact Or.inr ⟨hv, h2⟩

/-- Witness for C8 (amended): the failed opening of `halfOpenedSession`, in which
the audio stream cannot be allocated, returns a negative code with
`IS_RUNNING = 0`. -/
theorem prepare_failure_keeps_earlier_steps_witness :
    (prepareAVFormatContext initialSession "/sdcard/out.flv" [103, 66] 2 [18, 16] 2 0
      audioStreamFails).2 < 0 ∧
    (prepareAVFormatContext initialSession "/sdcard/out.flv" [103, 66] 2 [18, 16] 2 0
      audioStreamFails).1.IS_RUNNING = 0 :=
  (prepare_failure_keeps_earlier_steps initialSession "/sdcard/out.flv" [103, 66] 2 [18, 16] 2 0
    audioStreamFails).2.1 (Or.inr (Or.inr (Or.inl ⟨by decide, rfl⟩)))

/-! ## The end-to-end scenario -/

/-- C9, counterexample: opened with a video extradata size of 0 and two bytes of
audio extradata, `prepareAVFormatContext` succeeds but registers no video
stream (`videoStreamIndex` stays -1, the context has the audio stream only);
the video packets with raw PTS 0, 3000 and 6000 are all ignored, the video
anchor stays unset and the writer receives the two audio packets only. -/
theorem zero_length_extradata_registers_no_track :
    (prepareAVFormatContext initialSession "/sdcard/out.flv" [] 0 [18, 16] 2 0 allSucceed).2 = 0 ∧
    openedWithoutVideoExtradata.videoStreamIndex = -1 ∧
    openedWithoutVideoExtradata.audioStreamIndex = 0 ∧
    openedWithoutVideoExtradata.outputFormatContext.map (fun c => c.streams.map (fun t => t.codec_id))
      = some [CodecID.CODEC_ID_AAC] ∧
    writeAll openedWithoutVideoExtradata (scenarioCalls.take 3) = openedWithoutVideoExtradata ∧
    (writeAll openedWithoutVideoExtradata scenarioCalls).VIDEO_FIRST_PTS = AV_NOPTS_VALUE ∧
    forwarded (writeAll openedWithoutVideoExtradata scenarioCalls)
      = [⟨0, 0, AV_NOPTS_VALUE, 4, 50, 0⟩, ⟨0, 2, AV_NOPTS_VALUE, 5, 50, 0⟩] := by
  decide

/-- C9, amended: a zero-length extradata buffer is accepted by
`prepareAVFormatContext` but its track is not registered: the stream index of a
track whose extradata size is not positive is left as it was, and when that is
-1 every packet of the track is ignored afterwards.  For a session
opened from the initial globals with non-empty video extradata (1280x720,
H.264) and non-empty audio extradata (44100 Hz, 1 channel, AAC) both tracks are
registered (video at index 0, audio at index 1); the video packets with raw PTS
0, 3000, 6000 give a drop, then the adjusted timestamps 0 and 3000 with the
video anchor 3000, and the audio packets with raw PTS 0, 2048 give the adjusted
timestamps 0 and 2048 with the audio anchor 0; the writer receives exactly two
video packets and two audio packets. -/
theorem scenario_with_extradata (s : Session) (path : String) (vd : List Nat) (vs : Int)
    (ad : List Nat) (as d : Int) (lib : PrepareAnswers) :
    (vs ≤ 0 → (prepareAVFormatContext s path vd vs ad as d lib).1.videoStreamIndex
      = s.videoStreamIndex) ∧
    (as ≤ 0 → (prepareAVFormatContext s path vd vs ad as d lib).1.audioStreamIndex
      = s.audioStreamIndex) ∧
    (vs ≤ 0 → s.videoStreamIndex = -1 → ∀ c : WriteCall, c.jIsVideo = JNI_TRUE →
      writeCall (prepareAVFormatContext s path vd vs ad as d lib).1 c
        = ((prepareAVFormatContext s path vd vs ad as d lib).1, WriteResult.ignored)) ∧
    (as ≤ 0 → s.audioStreamIndex = -1 → ∀ c : WriteCall, c.jIsVideo ≠ JNI_TRUE →
      writeCall (prepareAVFormatContext s path vd vs ad as d lib).1 c
        = ((prepareAVFormatContext s path vd vs ad as d lib).1, WriteResult.ignored)) ∧
    (openedSession.videoStreamIndex = 0 ∧ openedSession.audioStreamIndex = 1 ∧
      openedSession.outputFormatContext.map (fun c => c.streams)
        = some [openedVideoStream, openedAudioStream]) ∧
    ((writeCall openedSession ⟨1, 1, 100, 0, 0, 1, 0⟩).2 = WriteResult.dropped ∧
      adjustedPts (writeAll openedSession (scenarioCalls.take 1)) 1 3000 = some 0 ∧
      adjustedPts (writeAll openedSession (scenarioCalls.take 2)) 1 6000 = some 3000 ∧
      (writeAll openedSession (scenarioCalls.take 2)).VIDEO_FIRST_PTS = 3000 ∧
      adjustedPts (writeAll openedSession (scenarioCalls.take 3)) 0 0 = some 0 ∧
      adjustedPts (writeAll openedSession (scenarioCalls.take 4)) 0 2048 = some 2048 ∧
      (writeAll openedSession (scenarioCalls.take 4)).AUDIO_FIRST_PTS = 0) ∧
    ((writeAll openedSession scenarioCalls).VIDEO_FIRST_PTS = 3000 ∧
      (writeAll openedSession scenarioCalls).AUDIO_FIRST_PTS = 0 ∧
      forwarded (writeAll openedSession scenarioCalls)
        = [⟨0, 0, AV_NOPTS_VALUE, 2, 100, 1⟩, ⟨0, 3, AV_NOPTS_VALUE, 3, 100, 0⟩,
           ⟨1, 0, AV_NOPTS_VALUE, 4, 50, 0⟩, ⟨1, 2, AV_NOPTS_VALUE, 5, 50, 0⟩]) := by
  refine ⟨(prepare_frame s path vd vs ad as d lib).2.2.1,
    (prepare_frame s path vd vs ad as d lib).2.2.2, ?_, ?_, by decide, by decide, by decide⟩
  · intro hvs hs c hc
    apply write_ignored
    exact Or.inl ⟨hc, by rw [(prepare_frame s path vd vs ad as d lib).2.2.1 hvs, hs]⟩
  · intro has hs c hc
    apply write_ignored
    exact Or.inr ⟨hc, by rw [(prepare_frame s path vd vs ad as d lib).2.2.2 has, hs]⟩

/-- Witness for C9 (amended): the opening with a video extradata size of 0
leaves `videoStreamIndex` at its initial value -1. -/
theorem scenario_with_extradata_witness :
    (prepareAVFormatContext initialSession "/sdcard/out.flv" [] 0 [18, 16] 2 0
      allSucceed).1.videoStreamIndex = initialSession.videoStreamIndex :=
  (scenario_with_extradata initialSession "/sdcard/out.flv" [] 0 [18, 16] 2 0 allSucceed).1
    (by decide)

/-! ## Closing twice -/

/-- C7: `finalizeAVFormatContext` called twice on the opened session returns both
times and leaves the same globals, and the trailer is written and the file
closed once, but `avformat_free_context` is called on the same context in both
calls: the context is released twice. -/
theorem finalize_twice_frees_twice :
    (finalizeAVFormatContext openedSession).map
        (fun s => s.outputFormatContext.map (fun c => (c.trailers, c.closed, c.freed)))
      = some (some (1, 1, 1)) ∧
    ((finalizeAVFormatContext openedSession).bind finalizeAVFormatContext).map
        (fun s => s.outputFormatContext.map (fun c => (c.trailers, c.closed, c.freed)))
      = some (some (1, 1, 2)) ∧
    ((finalizeAVFormatContext openedSession).bind finalizeAVFormatContext).map
        (fun s => (s.videoStreamIndex, s.audioStreamIndex, s.VIDEO_FIRST_PTS, s.AUDIO_FIRST_PTS,
          s.IS_RUNNING))
      = (finalizeAVFormatContext openedSession).map
        (fun s => (s.videoStreamIndex, s.audioStreamIndex, s.VIDEO_FIRST_PTS, s.AUDIO_FIRST_PTS,
          s.IS_RUNNING)) := by
  decide

end FFmpegWrapper
